import Mathlib

/-!
Formal model of the task dispatch and admission core of the bot repository:
the credit ledger (services/ledger_service.py, shared/database.py), the
Redis-backed task queue and state machine (shared/redis_client.py), the GPU
semaphore (shared/redis_client_gpu.py), the admission path
(bot_api/handlers/generate.py), the worker loop (services/queue_worker.py),
the cancellation handler (bot_api/handlers/cancel.py) and the payment
pipeline (services/payment_service.py).

Each Python function is translated into an executable Lean function over an
explicit state.  Redis keys become association lists; a database transaction
that can raise (unique-constraint violation, missing row) returns `Option`,
`none` meaning the transaction rolled back and the exception propagated.
Points where the Python code swallows a store error and continues (the
best-effort `LLEN` in `enqueue_task`, the fail-open `acquire_gpu_slot`) are
modelled with an explicit boolean fault flag for that one call.
-/

namespace MyBot

/-- Association-list lookup: the value stored at key `k`, if the key exists. -/
def alookup [DecidableEq κ] (l : List (κ × α)) (k : κ) : Option α :=
  match l with
  | [] => none
  | p :: ps => if p.1 = k then some p.2 else alookup ps k

/-- Association-list write: replace the first binding of `k`, or append one. -/
def aset [DecidableEq κ] (l : List (κ × α)) (k : κ) (v : α) : List (κ × α) :=
  match l with
  | [] => [(k, v)]
  | p :: ps => if p.1 = k then (k, v) :: ps else p :: aset ps k v

/-- Association-list delete: remove every binding of `k`. -/
def adel [DecidableEq κ] (l : List (κ × α)) (k : κ) : List (κ × α) :=
  l.filter (fun p => decide (p.1 ≠ k))

-- ---------------------------------------------------------------------------
-- Credit ledger (shared/database.py CreditLedger, services/ledger_service.py)
-- ---------------------------------------------------------------------------

/-- One row of the `credit_ledger` table (shared/database.py).  `amount` is
positive for credits and negative for debits; `reference_id` is nullable. -/
structure LedgerRow where
  user_id : Nat
  amount : Int
  reason : String
  reference_id : Option String
  balance_after : Int
deriving DecidableEq

/-- The relational state the ledger operations touch: the `users` table
(internal id to balance) and the append-only `credit_ledger` table. -/
structure Db where
  users : List (Nat × Int)
  ledger : List LedgerRow
deriving DecidableEq

/-- True when some ledger row already carries the pair `(reason, reference_id)`,
which is what the unique constraint `uq_credit_ledger_reason_reference`
guards (NULL reference ids never collide, as in PostgreSQL). -/
def ledgerHasPair (l : List LedgerRow) (reason : String) (ref : Option String) : Bool :=
  l.any (fun e => decide (e.reason = reason) && decide (e.reference_id = ref))

/-- `record_credit_change` (services/ledger_service.py): atomically update
`users.balance` and append a ledger row with the computed `balance_after`.
Runs inside the caller's transaction: a missing user row (`scalar_one`) or a
`(reason, reference_id)` unique-constraint violation at commit raises and the
whole transaction rolls back, modelled as `none`. -/
def record_credit_change (db : Db) (user_id : Nat) (amount : Int)
    (reason : String) (reference_id : Option String) : Option Db :=
  match alookup db.users user_id with
  | none => none
  | some bal =>
    if reference_id.isSome && ledgerHasPair db.ledger reason reference_id then none
    else
      let new_balance := bal + amount
      some { users := aset db.users user_id new_balance,
             ledger := db.ledger ++ [⟨user_id, amount, reason, reference_id, new_balance⟩] }

/-- `deduct_credits_idempotent` (services/ledger_service.py): return `true`
without writing when a negative row with this `reference_id` already exists;
return `false` when the user row is missing or the balance is insufficient;
otherwise append the debit and return `true`.  The returned flag is the
Python function's `bool` result; `none` models a raised database error. -/
def deduct_credits_idempotent (db : Db) (user_id : Nat) (amount : Int)
    (reason : String) (reference_id : String) : Option (Db × Bool) :=
  if db.ledger.any (fun e => decide (e.reference_id = some reference_id) && decide (e.amount < 0)) then
    some (db, true)
  else
    match alookup db.users user_id with
    | none => some (db, false)
    | some bal =>
      if bal < amount then some (db, false)
      else
        match record_credit_change db user_id (-amount) reason (some reference_id) with
        | none => none
        | some db2 => some (db2, true)

/-- `refund_generation` (services/generation_service.py): append a ledger row
with reason `refund` and reference id `refund_{request_id}`. -/
def refund_generation (db : Db) (user_id : Nat) (cost : Int) (request_id : String) : Option Db :=
  record_credit_change db user_id cost "refund" (some ("refund_" ++ request_id))

/-- `refund_if_needed` (shared/admin_guard.py): admins are skipped. -/
def refund_if_needed (db : Db) (user_id : Nat) (is_admin : Bool) (cost : Int)
    (request_id : String) : Option Db :=
  if is_admin then some db else refund_generation db user_id cost request_id

/-- `check_and_charge` (shared/admin_guard.py): admins are never charged;
otherwise `deduct_for_generation` (services/generation_service.py) deducts
with reason `"pro"` and the generation `request_id` as reference. -/
def check_and_charge (db : Db) (user_id : Nat) (is_admin : Bool) (cost : Int)
    (request_id : String) : Option (Db × Bool) :=
  if is_admin then some (db, true)
  else deduct_credits_idempotent db user_id cost "pro" request_id

/-- Number of ledger rows carrying a given `(reason, reference_id)` pair. -/
def pairCount (l : List LedgerRow) (reason : String) (ref : Option String) : Nat :=
  (l.filter (fun e => decide (e.reason = reason) && decide (e.reference_id = ref))).length

/-- The uniqueness invariant of the ledger: every `(reason, reference_id)`
pair with a non-null reference appears at most once. -/
def uniqueLedger (l : List LedgerRow) : Prop :=
  ∀ reason ref, pairCount l reason (some ref) ≤ 1

-- ---------------------------------------------------------------------------
-- Task queue, counters and locks (shared/redis_client.py)
-- ---------------------------------------------------------------------------

/-- Status constants of shared/redis_client.py. -/
def TASK_STATUS_QUEUED : String := "queued"

def TASK_STATUS_PROCESSING : String := "processing"

def TASK_STATUS_COMPLETED : String := "completed"

def TASK_STATUS_FAILED : String := "failed"

def TASK_STATUS_CANCELLED : String := "cancelled"

/-- The fields of the serialized task payload that the queue, worker,
cancellation and refund paths read.  The stored payload also carries prompt,
image data, chat id and generation id, which never influence the properties
modelled here. -/
structure TaskPayload where
  telegram_id : Nat
  user_id : Nat
  cost : Int
  request_id : String
  is_admin : Bool
  status : String
deriving DecidableEq

/-- The Redis keys the queue layer touches: `task:{id}` records, the
`task_queue` list (head first), `user_queue_count:{user}` counters and
`active_gen:{user}` locks. -/
structure Redis where
  tasks : List (String × TaskPayload)
  queue : List String
  userQueue : List (Nat × Int)
  activeGen : List (Nat × String)
deriving DecidableEq

/-- The configurable limits of shared/config.py read by `enqueue_task`. -/
structure Settings where
  MAX_QUEUED_TASKS_PER_USER : Int
  MAX_GLOBAL_QUEUE_SIZE : Int
deriving DecidableEq

/-- Defaults `DEFAULT_MAX_QUEUED_TASKS_PER_USER = 3` and
`DEFAULT_MAX_GLOBAL_QUEUE_SIZE = 500` (shared/config.py). -/
def defaultSettings : Settings := ⟨3, 500⟩

/-- `_get_user_queue_count`: a missing or unparsable key reads as 0. -/
def user_queue_count (r : Redis) (telegram_id : Nat) : Int :=
  (alookup r.userQueue telegram_id).getD 0

/-- `_incr_user_queue_count`: INCR (missing key counts as 0) and return the
new value. -/
def incr_user_queue_count (r : Redis) (telegram_id : Nat) : Redis × Int :=
  let v := user_queue_count r telegram_id + 1
  ({ r with userQueue := aset r.userQueue telegram_id v }, v)

/-- `_decr_user_queue_count`: DECR, re-read, and delete the key when the
re-read value is ≤ 0, so a nonpositive value is never left stored. -/
def decr_user_queue_count (r : Redis) (telegram_id : Nat) : Redis :=
  let cur := user_queue_count r telegram_id - 1
  if cur ≤ 0 then { r with userQueue := adel r.userQueue telegram_id }
  else { r with userQueue := aset r.userQueue telegram_id cur }

/-- `acquire_generation_lock`: `SET key task_id NX EX ttl` — succeeds only if
the per-user key is absent. -/
def acquire_generation_lock (r : Redis) (telegram_id : Nat) (task_id : String) :
    Redis × Bool :=
  match alookup r.activeGen telegram_id with
  | some _ => (r, false)
  | none => ({ r with activeGen := aset r.activeGen telegram_id task_id }, true)

/-- `release_generation_lock`: unconditional DEL of the per-user key. -/
def release_generation_lock (r : Redis) (telegram_id : Nat) : Redis :=
  { r with activeGen := adel r.activeGen telegram_id }

/-- Result of `enqueue_task`: the returned `position_ahead`, a raised
`QueueLimitError` with its message, or another raised exception (modelled for
the RPUSH call). -/
inductive EnqueueOutcome where
  | ok (position : Nat)
  | queueLimit (msg : String)
  | raised
deriving DecidableEq

/-- Final phase of `enqueue_task`: write `task:{id}` with status `queued` and
TTL, then RPUSH the id.  `rpushFails` injects a store error at the RPUSH,
which in Python escapes `enqueue_task` after the record was already written. -/
def enqueue_write_and_push (r : Redis) (rpushFails : Bool) (task_id : String)
    (payload : TaskPayload) (position_ahead : Nat) : Redis × EnqueueOutcome :=
  let r1 := { r with tasks := aset r.tasks task_id { payload with status := TASK_STATUS_QUEUED } }
  if rpushFails then (r1, .raised)
  else ({ r1 with queue := r1.queue ++ [task_id] }, .ok position_ahead)

/-- Per-user phase of `enqueue_task`: skipped entirely when the payload has no
(or a zero) telegram id; otherwise pre-check the counter against
`MAX_QUEUED_TASKS_PER_USER`, increment, and roll the increment back if the
incremented value overshoots the cap. -/
def enqueue_user_phase (cfg : Settings) (r : Redis) (rpushFails : Bool)
    (task_id : String) (payload : TaskPayload) (position_ahead : Nat) :
    Redis × EnqueueOutcome :=
  if payload.telegram_id ≠ 0 then
    let current := user_queue_count r payload.telegram_id
    if current ≥ cfg.MAX_QUEUED_TASKS_PER_USER then (r, .queueLimit "user_queue_limit")
    else
      let r1 := (incr_user_queue_count r payload.telegram_id).1
      let new_count := (incr_user_queue_count r payload.telegram_id).2
      if new_count > cfg.MAX_QUEUED_TASKS_PER_USER then
        (decr_user_queue_count r1 payload.telegram_id, .queueLimit "user_queue_limit")
      else enqueue_write_and_push r1 rpushFails task_id payload position_ahead
  else enqueue_write_and_push r rpushFails task_id payload position_ahead

/-- `enqueue_task` (shared/redis_client.py): check the global LLEN cap, then
the per-user counter cap, then write the record and push the id.  The LLEN
call is best-effort: when it fails (`llenFails`), the exception is swallowed,
`position_ahead` stays 0 and admission proceeds without the global check. -/
def enqueue_task (cfg : Settings) (r : Redis) (llenFails rpushFails : Bool)
    (task_id : String) (payload : TaskPayload) : Redis × EnqueueOutcome :=
  if llenFails then enqueue_user_phase cfg r rpushFails task_id payload 0
  else
    let qlen := r.queue.length
    if (qlen : Int) ≥ cfg.MAX_GLOBAL_QUEUE_SIZE then (r, .queueLimit "global_queue_full")
    else enqueue_user_phase cfg r rpushFails task_id payload qlen

/-- `dequeue_task`: LPOP the head; a missing (expired) record returns `none`
without decrementing; otherwise decrement the owner's queued counter and
return the id with its payload. -/
def dequeue_task (r : Redis) : Redis × Option (String × TaskPayload) :=
  match r.queue with
  | [] => (r, none)
  | task_id :: rest =>
    let r1 := { r with queue := rest }
    match alookup r1.tasks task_id with
    | none => (r1, none)
    | some payload =>
      let r2 := if payload.telegram_id ≠ 0 then decr_user_queue_count r1 payload.telegram_id else r1
      (r2, some (task_id, payload))

/-- `get_task_status`: the `status` field of the record, if present. -/
def get_task_status (r : Redis) (task_id : String) : Option String :=
  (alookup r.tasks task_id).map (fun p => p.status)

/-- `set_task_status`: unguarded read-modify-write of the `status` field —
whatever status the record currently has is overwritten. -/
def set_task_status (r : Redis) (task_id : String) (status : String) : Redis :=
  match alookup r.tasks task_id with
  | none => r
  | some payload =>
    { r with tasks := aset r.tasks task_id { payload with status := status } }

/-- `cancel_task`: succeeds only from status `queued`; flips the record to
`cancelled`, LREMs the first occurrence of the id from the list and
decrements the owner's queued counter. -/
def cancel_task (r : Redis) (task_id : String) : Redis × Bool :=
  match alookup r.tasks task_id with
  | none => (r, false)
  | some payload =>
    if payload.status ≠ TASK_STATUS_QUEUED then (r, false)
    else
      let r1 := { r with tasks := aset r.tasks task_id { payload with status := TASK_STATUS_CANCELLED } }
      let r2 := { r1 with queue := r1.queue.erase task_id }
      let r3 := if payload.telegram_id ≠ 0 then decr_user_queue_count r2 payload.telegram_id else r2
      (r3, true)

/-- `cancel_processing_task`: succeeds only from status `processing`; flips
the record to `cancelled` so the worker's next checkpoint observes it. -/
def cancel_processing_task (r : Redis) (task_id : String) : Redis × Bool :=
  match alookup r.tasks task_id with
  | none => (r, false)
  | some payload =>
    if payload.status ≠ TASK_STATUS_PROCESSING then (r, false)
    else
      ({ r with tasks := aset r.tasks task_id { payload with status := TASK_STATUS_CANCELLED } }, true)

-- ---------------------------------------------------------------------------
-- GPU semaphore (shared/redis_client_gpu.py)
-- ---------------------------------------------------------------------------

/-- `MAX_GPU_JOBS` is a hard-coded module constant in
shared/redis_client_gpu.py. -/
def MAX_GPU_JOBS : Int := 1

/-- The keys of the GPU semaphore: the `gpu:active_jobs` counter (`none` when
the key is absent) and the set of live `gpu:job:{task_id}` markers. -/
structure Gpu where
  active_jobs : Option Int
  markers : List String
deriving DecidableEq

/-- `get_active_gpu_jobs`: a missing counter key reads as 0. -/
def get_active_gpu_jobs (g : Gpu) : Int := g.active_jobs.getD 0

/-- `acquire_gpu_slot`: an atomic Lua check-and-increment — if the counter is
below `MAX_GPU_JOBS`, INCR it and SETEX the per-task marker, returning true.
When the call raises (`evalFails`), the except branch returns `true` without
touching the store ("On error, allow the task to proceed (fail-open)"). -/
def acquire_gpu_slot (g : Gpu) (evalFails : Bool) (task_id : String) : Gpu × Bool :=
  if evalFails then (g, true)
  else
    let current := get_active_gpu_jobs g
    if current ≥ MAX_GPU_JOBS then (g, false)
    else
      ({ active_jobs := some (current + 1),
         markers := if task_id ∈ g.markers then g.markers else task_id :: g.markers }, true)

/-- `release_gpu_slot`: only when the per-task marker exists, DECR the
counter (never below zero) and DEL the marker; without a marker the whole
call is a no-op. -/
def release_gpu_slot (g : Gpu) (task_id : String) : Gpu :=
  if task_id ∈ g.markers then
    let current := get_active_gpu_jobs g
    let g1 := if current > 0 then { g with active_jobs := some (current - 1) } else g
    { g1 with markers := g1.markers.erase task_id }
  else g

-- ---------------------------------------------------------------------------
-- Payment pipeline (services/payment_service.py, shared/database.py Payment)
-- ---------------------------------------------------------------------------

/-- One row of the `payments` table; `yookassa_payment_id` is unique at
storage level.  The `paid_at` timestamp is abstracted to a set/unset flag. -/
structure PaymentRow where
  user_id : Nat
  amount_rub : Int
  credits : Int
  status : String
  yookassa_payment_id : String
  paid_at_set : Bool
deriving DecidableEq

/-- The state the payment pipeline touches: the ledger database plus the
`payments` table. -/
structure PayDb where
  db : Db
  payments : List PaymentRow
deriving DecidableEq

/-- The `amount.value` field of a webhook object: absent (the extractor then
parses the default string "0"), unparsable (Decimal raises, extractor yields
None), or a parsed Decimal value, modelled as an exact rational. -/
inductive AmountField where
  | absent
  | invalid
  | val (q : Rat)
deriving DecidableEq

/-- The parts of the webhook `object` dict that
`process_yookassa_webhook` / `_process_succeeded_payment` read. -/
structure PaymentObj where
  id : Option String
  status : String
  amount_value : AmountField
  amount_currency : String
deriving DecidableEq

/-- ASCII uppercase of one character, modelling Python `str.upper()` on the
currency codes this pipeline compares (all ASCII). -/
def upperChar (c : Char) : Char :=
  if 97 ≤ c.toNat ∧ c.toNat ≤ 122 then Char.ofNat (c.toNat - 32) else c

/-- ASCII uppercase of a string. -/
def upperAscii (s : String) : String := String.mk (s.data.map upperChar)

/-- Strip leading and trailing spaces, modelling Python `str.strip()` on the
currency codes this pipeline compares. -/
def stripAscii (s : String) : String :=
  String.mk (((s.data.dropWhile (fun c => c = ' ')).reverse.dropWhile
    (fun c => c = ' ')).reverse)

/-- `_extract_amount_currency`: parse `amount.value` (missing key reads as
"0") and normalize the currency code by strip + upper. -/
def extract_amount_currency (pobj : PaymentObj) : Option Rat × String :=
  (match pobj.amount_value with
   | .absent => some 0
   | .invalid => none
   | .val q => some q,
   upperAscii (stripAscii pobj.amount_currency))

/-- The provider's verified payment object as returned by
`YooPayment.find_one`; each field is read defensively with `getattr`, so any
of them may be absent. -/
structure VerifiedPayment where
  status : Option String
  amount_value : Option Rat
  amount_currency : Option String
deriving DecidableEq

/-- Row lookup by the unique external payment id. -/
def findPayment (ps : List PaymentRow) (yid : String) : Option PaymentRow :=
  ps.find? (fun p => decide (p.yookassa_payment_id = yid))

/-- Flip the payment row with this external id to `succeeded` and set
`paid_at`. -/
def setPaymentSucceeded (ps : List PaymentRow) (yid : String) : List PaymentRow :=
  ps.map (fun p =>
    if p.yookassa_payment_id = yid then { p with status := "succeeded", paid_at_set := true } else p)

/-- `_process_succeeded_payment` (services/payment_service.py): one
transaction that selects the payment row for update, returns idempotently if
it is already `succeeded`, validates amount (`Decimal("{amount_rub}.00")`,
numerically the integer `amount_rub`) and currency `"RUB"` exactly, returns
idempotently if the ledger already holds `(payment, yookassa_id)`, and
otherwise flips the row and appends the credit in the same transaction.  A
database error inside the transaction rolls everything back and every caller
catches it and reports failure, modelled as `(s, false)`. -/
def process_succeeded_payment (s : PayDb) (yookassa_id : String)
    (payment_obj : PaymentObj) : PayDb × Bool :=
  match findPayment s.payments yookassa_id with
  | none => (s, false)
  | some payment =>
    if payment.status = "succeeded" then (s, true)
    else
      match (extract_amount_currency payment_obj).1 with
      | none => (s, false)
      | some webhook_dec =>
        let webhook_cur := (extract_amount_currency payment_obj).2
        if webhook_cur ≠ "RUB" ∨ webhook_dec ≠ (payment.amount_rub : Rat) then (s, false)
        else if s.db.ledger.any (fun e =>
            decide (e.reason = "payment") && decide (e.reference_id = some yookassa_id)) then
          ({ s with payments := setPaymentSucceeded s.payments yookassa_id }, true)
        else
          match record_credit_change s.db payment.user_id payment.credits "payment" (some yookassa_id) with
          | none => (s, false)
          | some db2 => (⟨db2, setPaymentSucceeded s.payments yookassa_id⟩, true)

/-- `process_yookassa_webhook` (services/payment_service.py): accept only
`payment.succeeded` events whose object claims `succeeded`, re-verify through
the provider API (`verified = none` models the call raising), refuse unless
the verified status is `succeeded`, substitute the verified amount/currency
into the object when the verified response carries both, and run the
transactional path. -/
def process_yookassa_webhook (s : PayDb) (event : String) (payment_obj : PaymentObj)
    (verified : Option VerifiedPayment) : PayDb × Bool :=
  if event ≠ "payment.succeeded" ∨ payment_obj.status ≠ "succeeded" then (s, false)
  else
    match payment_obj.id with
    | none => (s, false)
    | some yookassa_id =>
      match verified with
      | none => (s, false)
      | some v =>
        if v.status ≠ some "succeeded" then (s, false)
        else
          let pobj2 :=
            match v.amount_value, v.amount_currency with
            | some a, some c => { payment_obj with amount_value := .val a, amount_currency := c }
            | _, _ => payment_obj
          process_succeeded_payment s yookassa_id pobj2

-- ---------------------------------------------------------------------------
-- Worker loop (services/queue_worker.py) and admission
-- (bot_api/handlers/generate.py), over the combined state
-- ---------------------------------------------------------------------------

/-- The combined state the worker and the admission path read and write:
the relational database, the Redis queue layer and the GPU semaphore. -/
structure Sys where
  db : Db
  redis : Redis
  gpu : Gpu
deriving DecidableEq

/-- `_handle_refund` (services/queue_worker.py lines 277-279): the body is
literally `pass` — "credits refund skipped (no credits system)".  Every
worker-side failure, timeout and checkpoint cancellation routes its refund
through this no-op. -/
def handle_refund (s : Sys) (_payload : TaskPayload) (_task_id : String) : Sys := s

/-- Outcome of the backend invocation inside `_process_image_task`: the call
returned (with truthy or empty `result_bytes`), raised
`ComfyUIConnectionError`, raised `ComfyUITimeoutError`, or raised anything
else (the generic handler). -/
inductive BackendOutcome where
  | ok (nonempty : Bool)
  | connError
  | timeoutError
  | otherError
deriving DecidableEq

/-- `_process_image_task` (services/queue_worker.py): re-check cancellation at
checkpoint A (before the backend call) and checkpoint B (after it); on
success mark `completed`; on empty result mark `failed` with the refund
comment "credits refund skipped"; on exception mark `failed` and call the
no-op `_handle_refund`; always release the per-user generation lock.
`cancelBeforeA` / `cancelBeforeB` interleave an external
`cancel_processing_task` right before the corresponding checkpoint read. -/
def process_image_task (s : Sys) (task_id : String) (payload : TaskPayload)
    (cancelBeforeA cancelBeforeB : Bool) (backend : BackendOutcome) : Sys :=
  let telegram_id := payload.telegram_id
  let s1 := if cancelBeforeA then { s with redis := (cancel_processing_task s.redis task_id).1 } else s
  if get_task_status s1.redis task_id = some TASK_STATUS_CANCELLED then
    let s2 := handle_refund s1 payload task_id
    { s2 with redis := release_generation_lock s2.redis telegram_id }
  else
    match backend with
    | .ok nonempty =>
      let s2 := if cancelBeforeB then { s1 with redis := (cancel_processing_task s1.redis task_id).1 } else s1
      if get_task_status s2.redis task_id = some TASK_STATUS_CANCELLED then
        let s3 := handle_refund s2 payload task_id
        { s3 with redis := release_generation_lock s3.redis telegram_id }
      else if nonempty then
        let s3 := { s2 with redis := set_task_status s2.redis task_id TASK_STATUS_COMPLETED }
        { s3 with redis := release_generation_lock s3.redis telegram_id }
      else
        let s3 := { s2 with redis := set_task_status s2.redis task_id TASK_STATUS_FAILED }
        { s3 with redis := release_generation_lock s3.redis telegram_id }
    | _ =>
      let s2 := { s1 with redis := set_task_status s1.redis task_id TASK_STATUS_FAILED }
      let s3 := handle_refund s2 payload task_id
      { s3 with redis := release_generation_lock s3.redis telegram_id }

/-- What one pass of `_worker_loop` did: slept on an empty queue, skipped a
task cancelled while queued, hit the saturated GPU semaphore (notify, sleep 5
seconds and `continue` — the popped id is in no list and no local structure),
or drove the task through `_process_image_task`. -/
inductive IterOutcome where
  | queueEmpty
  | cancelledSkip (task_id : String)
  | gpuBusyDropped (task_id : String)
  | processed (task_id : String)
deriving DecidableEq

/-- One iteration of `_worker_loop` (services/queue_worker.py): dequeue,
handle the cancelled-while-queued case, try to acquire the GPU slot
(`continue` without re-push when saturated), otherwise set `processing`, run
the task and release the GPU slot in the `finally`. -/
def worker_loop_iter (s : Sys) (gpuEvalFails cancelBeforeA cancelBeforeB : Bool)
    (backend : BackendOutcome) : Sys × IterOutcome :=
  let (r1, popped) := dequeue_task s.redis
  let s1 := { s with redis := r1 }
  match popped with
  | none => (s1, .queueEmpty)
  | some (task_id, payload) =>
    if get_task_status s1.redis task_id = some TASK_STATUS_CANCELLED then
      let s2 := handle_refund s1 payload task_id
      ({ s2 with redis := release_generation_lock s2.redis payload.telegram_id }, .cancelledSkip task_id)
    else
      let (g1, acquired) := acquire_gpu_slot s1.gpu gpuEvalFails task_id
      let s2 := { s1 with gpu := g1 }
      if acquired then
        let s3 := { s2 with redis := set_task_status s2.redis task_id TASK_STATUS_PROCESSING }
        let s4 := process_image_task s3 task_id payload cancelBeforeA cancelBeforeB backend
        ({ s4 with gpu := release_gpu_slot s4.gpu task_id }, .processed task_id)
      else (s2, .gpuBusyDropped task_id)

/-- `_do_cancel` (bot_api/handlers/cancel.py): look up the active task, try
`cancel_task` first (queued-cancel refunds immediately via
`refund_if_needed`), then `cancel_processing_task` (the worker is supposed to
refund at its next checkpoint); always release the lock and clear state.  A
raised refund escapes to the command handler's catch-all, modelled `none`. -/
def do_cancel (s : Sys) (telegram_id : Nat) : Option (Sys × String) :=
  match alookup s.redis.activeGen telegram_id with
  | none => some (s, "no_task")
  | some task_id =>
    let (r1, cancelled_queued) := cancel_task s.redis task_id
    let s1 := { s with redis := r1 }
    if cancelled_queued then
      match alookup s1.redis.tasks task_id with
      | some payload =>
        match refund_if_needed s1.db payload.user_id payload.is_admin payload.cost payload.request_id with
        | none => none
        | some db2 =>
          some ({ s1 with db := db2, redis := release_generation_lock s1.redis telegram_id },
                "cancelled_queued")
      | none =>
        some ({ s1 with redis := release_generation_lock s1.redis telegram_id }, "cancelled_queued")
    else
      let (r2, cancelled_processing) := cancel_processing_task s1.redis task_id
      let s2 := { s1 with redis := r2 }
      if cancelled_processing then
        some ({ s2 with redis := release_generation_lock s2.redis telegram_id }, "cancelled_processing")
      else
        some ({ s2 with redis := release_generation_lock s2.redis telegram_id }, "no_task")

/-- Result of `_enqueue_generation` as observed by the caller: a typed
rejection, an admission with the pre-push queue position, or an exception
propagating out of the handler. -/
inductive AdmissionOutcome where
  | insufficientBalance
  | alreadyActive
  | userQueueFull
  | globalQueueFull
  | admitted (position : Nat)
  | raised
deriving DecidableEq

/-- `_enqueue_generation` (bot_api/handlers/generate.py): charge (admins
skipped), acquire the per-user active lock (refund on failure), create the
generation row (relational `generations` table — no ledger effect, not
modelled), then `enqueue_task`; a `QueueLimitError` refunds and releases the
lock, and any other enqueue exception refunds, releases the lock and
re-raises. -/
def enqueue_generation (cfg : Settings) (s : Sys) (telegram_id user_id : Nat)
    (is_admin : Bool) (cost : Int) (request_id : String) (llenFails rpushFails : Bool) :
    Sys × AdmissionOutcome :=
  match check_and_charge s.db user_id is_admin cost request_id with
  | none => (s, .raised)
  | some (db1, success) =>
    let s1 := { s with db := db1 }
    if success = false then (s1, .insufficientBalance)
    else
      let r1 := (acquire_generation_lock s1.redis telegram_id request_id).1
      let locked := (acquire_generation_lock s1.redis telegram_id request_id).2
      let s2 := { s1 with redis := r1 }
      if locked = false then
        match refund_if_needed s2.db user_id is_admin cost request_id with
        | none => (s2, .raised)
        | some db2 => ({ s2 with db := db2 }, .alreadyActive)
      else
        let payload : TaskPayload :=
          { telegram_id := telegram_id, user_id := user_id, cost := cost,
            request_id := request_id, is_admin := is_admin, status := "" }
        let r2 := (enqueue_task cfg s2.redis llenFails rpushFails request_id payload).1
        let outcome := (enqueue_task cfg s2.redis llenFails rpushFails request_id payload).2
        let s3 := { s2 with redis := r2 }
        match outcome with
        | .ok position => (s3, .admitted position)
        | .queueLimit msg =>
          match refund_if_needed s3.db user_id is_admin cost request_id with
          | none => (s3, .raised)
          | some db2 =>
            ({ s3 with db := db2, redis := release_generation_lock s3.redis telegram_id },
             if msg = "global_queue_full" then .globalQueueFull else .userQueueFull)
        | .raised =>
          match refund_if_needed s3.db user_id is_admin cost request_id with
          | none => (s3, .raised)
          | some db2 =>
            ({ s3 with db := db2, redis := release_generation_lock s3.redis telegram_id }, .raised)

-- ---------------------------------------------------------------------------
-- Interleavings of the public queue operations, for the reachable-state
-- invariants (queue caps, counter nonnegativity)
-- ---------------------------------------------------------------------------

/-- The operations that touch the queue, the task records and the per-user
queued counters: admission enqueues (with their fault flags), worker
dequeues, the two cancellation paths and the worker's status writes. -/
inductive QueueOp where
  | enq (llenFails rpushFails : Bool) (task_id : String) (payload : TaskPayload)
  | deq
  | cancelQueued (task_id : String)
  | cancelProcessing (task_id : String)
  | setStatus (task_id status : String)
deriving DecidableEq

/-- Apply one queue operation to the Redis state. -/
def applyQueueOp (cfg : Settings) (r : Redis) : QueueOp → Redis
  | .enq lf rf task_id payload => (enqueue_task cfg r lf rf task_id payload).1
  | .deq => (dequeue_task r).1
  | .cancelQueued task_id => (cancel_task r task_id).1
  | .cancelProcessing task_id => (cancel_processing_task r task_id).1
  | .setStatus task_id status => set_task_status r task_id status

/-- Run a sequence of queue operations. -/
def runQueueOps (cfg : Settings) (r : Redis) (ops : List QueueOp) : Redis :=
  ops.foldl (applyQueueOp cfg) r

/-- Every stored per-user queued counter is strictly positive (a deleted key
reads as zero, so nothing nonpositive is ever persisted). -/
def countersPositive (r : Redis) : Prop :=
  ∀ p ∈ r.userQueue, 0 < p.2

/-- The two queue caps of the specification: global list length and per-user
queued counters. -/
def queueCapsOk (cfg : Settings) (r : Redis) : Prop :=
  (r.queue.length : Int) ≤ cfg.MAX_GLOBAL_QUEUE_SIZE ∧
  ∀ p ∈ r.userQueue, p.2 ≤ cfg.MAX_QUEUED_TASKS_PER_USER

/-- An operation whose global-length check did not hit a store error: the
best-effort LLEN swallow is the one hole in the global cap. -/
def llenOk : QueueOp → Prop
  | .enq lf _ _ _ => lf = false
  | _ => True

/-- What the admission path must leave unchanged when it rejects a request:
the user's balance, the queue list, the task record, the caller's active-lock
entry and the per-user counters are as they were before the call. -/
def admissionCompensated (s s2 : Sys) (telegram_id user_id : Nat) (request_id : String) :
    Prop :=
  alookup s2.db.users user_id = alookup s.db.users user_id ∧
  s2.redis.queue = s.redis.queue ∧
  alookup s2.redis.tasks request_id = alookup s.redis.tasks request_id ∧
  alookup s2.redis.activeGen telegram_id = alookup s.redis.activeGen telegram_id ∧
  s2.redis.userQueue = s.redis.userQueue

-- ---------------------------------------------------------------------------
-- Helper lemmas about the store primitives
-- ---------------------------------------------------------------------------

theorem alookup_aset [DecidableEq κ] (l : List (κ × α)) (k : κ) (v : α) :
    alookup (aset l k v) k = some v := by
  induction l with
  | nil => simp [aset, alookup]
  | cons p ps ih =>
    by_cases h : p.1 = k
    · simp [aset, h, alookup]
    · simp [aset, h, alookup, ih]

theorem alookup_aset_ne [DecidableEq κ] (l : List (κ × α)) (k k2 : κ) (v : α)
    (h : k2 ≠ k) : alookup (aset l k v) k2 = alookup l k2 := by
  have hk : ¬ k = k2 := fun hh => h hh.symm
  induction l with
  | nil => simp [aset, alookup, hk]
  | cons p ps ih =>
    by_cases hp : p.1 = k
    · subst hp
      simp [aset, alookup, hk]
    · simp [aset, hp, alookup, ih]

theorem alookup_adel [DecidableEq κ] (l : List (κ × α)) (k : κ) :
    alookup (adel l k) k = none := by
  induction l with
  | nil => simp [adel, alookup]
  | cons p ps ih =>
    by_cases hp : p.1 = k
    · simpa [adel, List.filter_cons, hp] using ih
    · simpa [adel, List.filter_cons, alookup, hp] using ih

theorem alookup_adel_ne [DecidableEq κ] (l : List (κ × α)) (k k2 : κ)
    (h : k2 ≠ k) : alookup (adel l k) k2 = alookup l k2 := by
  have hk : ¬ k = k2 := fun hh => h hh.symm
  induction l with
  | nil => simp [adel, alookup]
  | cons p ps ih =>
    by_cases hp : p.1 = k
    · subst hp
      simpa [adel, List.filter_cons, alookup, hk] using ih
    · by_cases hq : p.1 = k2
      · simp [adel, List.filter_cons, alookup, hp, hq, hk, h]
      · simpa [adel, List.filter_cons, alookup, hp, hq] using ih

theorem mem_aset [DecidableEq κ] {l : List (κ × α)} {k : κ} {v : α} {q : κ × α}
    (h : q ∈ aset l k v) : q ∈ l ∨ q = (k, v) := by
  induction l with
  | nil => simpa [aset] using h
  | cons p ps ih =>
    by_cases hp : p.1 = k
    · rcases (by simpa [aset, hp] using h : q = (k, v) ∨ q ∈ ps) with h1 | h1
      · exact Or.inr h1
      · exact Or.inl (List.mem_cons_of_mem _ h1)
    · rcases (by simpa [aset, hp] using h : q = p ∨ q ∈ aset ps k v) with h1 | h1
      · exact Or.inl (h1 ▸ List.mem_cons_self _ _)
      · rcases ih h1 with h2 | h2
        · exact Or.inl (List.mem_cons_of_mem _ h2)
        · exact Or.inr h2

theorem mem_adel [DecidableEq κ] {l : List (κ × α)} {k : κ} {q : κ × α}
    (h : q ∈ adel l k) : q ∈ l :=
  (List.mem_filter.mp h).1

theorem decr_tasks (r : Redis) (u : Nat) :
    (decr_user_queue_count r u).tasks = r.tasks := by
  by_cases hc : user_queue_count r u - 1 ≤ 0 <;> simp [decr_user_queue_count, hc]

theorem decr_queue (r : Redis) (u : Nat) :
    (decr_user_queue_count r u).queue = r.queue := by
  by_cases hc : user_queue_count r u - 1 ≤ 0 <;> simp [decr_user_queue_count, hc]

theorem decr_activeGen (r : Redis) (u : Nat) :
    (decr_user_queue_count r u).activeGen = r.activeGen := by
  by_cases hc : user_queue_count r u - 1 ≤ 0 <;> simp [decr_user_queue_count, hc]

theorem pairCount_append (l1 l2 : List LedgerRow) (reason : String) (ref : Option String) :
    pairCount (l1 ++ l2) reason ref = pairCount l1 reason ref + pairCount l2 reason ref := by
  simp [pairCount, List.filter_append]

theorem pairCount_eq_zero (l : List LedgerRow) (reason : String) (ref : Option String)
    (h : ledgerHasPair l reason ref = false) : pairCount l reason ref = 0 := by
  simp only [ledgerHasPair, List.any_eq_false, Bool.and_eq_true, decide_eq_true_eq,
    not_and] at h
  simp only [pairCount, List.length_eq_zero, List.filter_eq_nil_iff, Bool.and_eq_true,
    decide_eq_true_eq, not_and]
  exact h

theorem uniqueLedger_append (l : List LedgerRow) (row : LedgerRow)
    (h : uniqueLedger l)
    (hrow : ∀ ref, row.reference_id = some ref → ledgerHasPair l row.reason (some ref) = false) :
    uniqueLedger (l ++ [row]) := by
  intro reason ref
  rw [pairCount_append]
  by_cases hm : row.reason = reason ∧ row.reference_id = some ref
  · have hz : pairCount l reason (some ref) = 0 := by
      have := hrow ref hm.2
      rw [hm.1] at this
      exact pairCount_eq_zero l reason (some ref) this
    have hone : pairCount [row] reason (some ref) ≤ 1 := by
      simpa [pairCount] using List.length_filter_le
        (fun e => decide (e.reason = reason) && decide (e.reference_id = some ref)) [row]
    omega
  · have hzrow : pairCount [row] reason (some ref) = 0 := by
      simp only [pairCount, List.length_eq_zero, List.filter_eq_nil_iff, Bool.and_eq_true,
        decide_eq_true_eq, not_and]
      intro x hx
      rcases List.mem_singleton.mp hx with rfl
      intro h1 h2
      exact hm ⟨h1, h2⟩
    rw [hzrow]
    have := h reason ref
    omega

-- ---------------------------------------------------------------------------
-- Claim theorems
-- ---------------------------------------------------------------------------

/-- C1: the worker-side refund is a no-op.  A non-admin task `r1` (cost 19,
already debited, ledger holding the debit row) whose backend call raises
`ComfyUITimeoutError` while processing reaches the terminal state `failed`,
yet the database is completely untouched: no ledger row with reason `refund`
and reference `refund_r1` exists afterwards — `_handle_refund` is `pass` —
contradicting the required exactly-one refund row; the same holds when a
cancellation is observed at checkpoint A. -/
theorem C1_worker_side_refund_is_noop :
    (get_task_status (process_image_task
        ⟨⟨[(1, 31)], [⟨1, -19, "pro", some "r1", 31⟩]⟩,
         ⟨[("r1", ⟨7, 1, 19, "r1", false, "processing"⟩)], [], [], [(7, "r1")]⟩,
         ⟨some 1, ["r1"]⟩⟩
        "r1" ⟨7, 1, 19, "r1", false, "processing"⟩ false false .timeoutError).redis "r1" =
      some TASK_STATUS_FAILED ∧
     (process_image_task
        ⟨⟨[(1, 31)], [⟨1, -19, "pro", some "r1", 31⟩]⟩,
         ⟨[("r1", ⟨7, 1, 19, "r1", false, "processing"⟩)], [], [], [(7, "r1")]⟩,
         ⟨some 1, ["r1"]⟩⟩
        "r1" ⟨7, 1, 19, "r1", false, "processing"⟩ false false .timeoutError).db =
      ⟨[(1, 31)], [⟨1, -19, "pro", some "r1", 31⟩]⟩ ∧
     pairCount (process_image_task
        ⟨⟨[(1, 31)], [⟨1, -19, "pro", some "r1", 31⟩]⟩,
         ⟨[("r1", ⟨7, 1, 19, "r1", false, "processing"⟩)], [], [], [(7, "r1")]⟩,
         ⟨some 1, ["r1"]⟩⟩
        "r1" ⟨7, 1, 19, "r1", false, "processing"⟩ false false .timeoutError).db.ledger
       "refund" (some "refund_r1") = 0) ∧
    (get_task_status (process_image_task
        ⟨⟨[(1, 31)], [⟨1, -19, "pro", some "r1", 31⟩]⟩,
         ⟨[("r1", ⟨7, 1, 19, "r1", false, "processing"⟩)], [], [], [(7, "r1")]⟩,
         ⟨some 1, ["r1"]⟩⟩
        "r1" ⟨7, 1, 19, "r1", false, "processing"⟩ true false (.ok true)).redis "r1" =
      some TASK_STATUS_CANCELLED ∧
     (process_image_task
        ⟨⟨[(1, 31)], [⟨1, -19, "pro", some "r1", 31⟩]⟩,
         ⟨[("r1", ⟨7, 1, 19, "r1", false, "processing"⟩)], [], [], [(7, "r1")]⟩,
         ⟨some 1, ["r1"]⟩⟩
        "r1" ⟨7, 1, 19, "r1", false, "processing"⟩ true false (.ok true)).db =
      ⟨[(1, 31)], [⟨1, -19, "pro", some "r1", 31⟩]⟩) := by
  decide

/-- C2: when the GPU semaphore is saturated, the dequeued task is lost.  With
queue `[t1]` (owner 7, status queued) and `gpu:active_jobs = 1 = MAX_GPU_JOBS`,
one worker iteration pops `t1`, fails to acquire the slot and continues: the
outcome is the `gpuBusyDropped` branch, the queue is now empty (nothing was
re-pushed to either end), and the record still says `queued` — the task can
never be processed again. -/
theorem C2_gpu_saturation_drops_task :
    (worker_loop_iter
        ⟨⟨[(1, 31)], [⟨1, -19, "pro", some "t1", 31⟩]⟩,
         ⟨[("t1", ⟨7, 1, 19, "t1", false, "queued"⟩)], ["t1"], [(7, 1)], [(7, "t1")]⟩,
         ⟨some 1, ["other"]⟩⟩
        false false false (.ok true)).2 = .gpuBusyDropped "t1" ∧
    (worker_loop_iter
        ⟨⟨[(1, 31)], [⟨1, -19, "pro", some "t1", 31⟩]⟩,
         ⟨[("t1", ⟨7, 1, 19, "t1", false, "queued"⟩)], ["t1"], [(7, 1)], [(7, "t1")]⟩,
         ⟨some 1, ["other"]⟩⟩
        false false false (.ok true)).1.redis.queue = [] ∧
    get_task_status (worker_loop_iter
        ⟨⟨[(1, 31)], [⟨1, -19, "pro", some "t1", 31⟩]⟩,
         ⟨[("t1", ⟨7, 1, 19, "t1", false, "queued"⟩)], ["t1"], [(7, 1)], [(7, "t1")]⟩,
         ⟨some 1, ["other"]⟩⟩
        false false false (.ok true)).1.redis "t1" = some TASK_STATUS_QUEUED := by
  decide

/-- C3 counterexample: `set_task_status` is an unguarded read-modify-write,
so a terminal status does not absorb: rewriting a `cancelled` record to
`processing` succeeds, leaving the DAG. -/
theorem C3_set_task_status_escapes_dag :
    get_task_status
      (set_task_status ⟨[("t1", ⟨7, 1, 19, "t1", false, TASK_STATUS_CANCELLED⟩)], [], [], []⟩
        "t1" TASK_STATUS_PROCESSING) "t1" = some TASK_STATUS_PROCESSING := by
  decide

/-- C3 (amended): the guarded operations respect the DAG — `cancel_task`
succeeds exactly from `queued` and moves to `cancelled`, and
`cancel_processing_task` succeeds exactly from `processing` and moves to
`cancelled`; on any other status (terminal states included) they return false
and leave the whole state unchanged. -/
theorem C3_cancel_ops_respect_dag (r : Redis) (task_id : String) :
    (((cancel_task r task_id).2 = true →
        get_task_status r task_id = some TASK_STATUS_QUEUED ∧
        get_task_status (cancel_task r task_id).1 task_id = some TASK_STATUS_CANCELLED) ∧
     ((cancel_task r task_id).2 = false → (cancel_task r task_id).1 = r)) ∧
    (((cancel_processing_task r task_id).2 = true →
        get_task_status r task_id = some TASK_STATUS_PROCESSING ∧
        get_task_status (cancel_processing_task r task_id).1 task_id = some TASK_STATUS_CANCELLED) ∧
     ((cancel_processing_task r task_id).2 = false → (cancel_processing_task r task_id).1 = r)) := by
  refine ⟨⟨?_, ?_⟩, ?_, ?_⟩
  · intro ht
    rcases h : alookup r.tasks task_id with _ | payload
    · simp [cancel_task, h] at ht
    · by_cases hs : payload.status = TASK_STATUS_QUEUED
      · refine ⟨by simp [get_task_status, h, hs], ?_⟩
        have key : ((cancel_task r task_id).1).tasks =
            aset r.tasks task_id { payload with status := TASK_STATUS_CANCELLED } := by
          by_cases htel : payload.telegram_id = 0 <;>
            simp [cancel_task, h, hs, htel, decr_tasks]
        simp [get_task_status, key, alookup_aset]
      · simp [cancel_task, h, hs] at ht
  · intro hf
    rcases h : alookup r.tasks task_id with _ | payload
    · simp [cancel_task, h]
    · by_cases hs : payload.status = TASK_STATUS_QUEUED
      · simp [cancel_task, h, hs] at hf
      · simp [cancel_task, h, hs]
  · intro ht
    rcases h : alookup r.tasks task_id with _ | payload
    · simp [cancel_processing_task, h] at ht
    · by_cases hs : payload.status = TASK_STATUS_PROCESSING
      · exact ⟨by simp [get_task_status, h, hs],
          by simp [cancel_processing_task, h, hs, get_task_status, alookup_aset]⟩
      · simp [cancel_processing_task, h, hs] at ht
  · intro hf
    rcases h : alookup r.tasks task_id with _ | payload
    · simp [cancel_processing_task, h]
    · by_cases hs : payload.status = TASK_STATUS_PROCESSING
      · simp [cancel_processing_task, h, hs] at hf
      · simp [cancel_processing_task, h, hs]

/-- C3 witness: at a concrete queued task, `cancel_task` moves it to
`cancelled`, and at a concrete completed task, `cancel_processing_task`
changes nothing. -/
theorem C3_cancel_ops_respect_dag_witness :
    get_task_status
      ((cancel_task ⟨[("t1", ⟨7, 1, 19, "t1", false, "queued"⟩)], ["t1"], [(7, 1)], []⟩ "t1").1)
      "t1" = some TASK_STATUS_CANCELLED ∧
    (cancel_processing_task
        ⟨[("t2", ⟨7, 1, 19, "t2", false, "completed"⟩)], [], [], []⟩ "t2").1 =
      ⟨[("t2", ⟨7, 1, 19, "t2", false, "completed"⟩)], [], [], []⟩ := by
  constructor
  · exact ((C3_cancel_ops_respect_dag
      ⟨[("t1", ⟨7, 1, 19, "t1", false, "queued"⟩)], ["t1"], [(7, 1)], []⟩ "t1").1.1
      (by decide)).2
  · exact (C3_cancel_ops_respect_dag
      ⟨[("t2", ⟨7, 1, 19, "t2", false, "completed"⟩)], [], [], []⟩ "t2").2.2 (by decide)

/-- C4 counterexample: the deduction's return type cannot distinguish the
first charge from a repeat.  With user 1 at balance 100, two calls of
`deduct_credits_idempotent` with reference `r1` produce exactly one debit row,
but both calls return the same value `true`: the claim's requirement that
exactly one of the N return values reports Deducted and the rest report
AlreadyDeducted, distinguishably, fails — the returns are equal. -/
theorem C4_returns_indistinguishable :
    deduct_credits_idempotent ⟨[(1, 100)], []⟩ 1 19 "pro" "r1" =
      some (⟨[(1, 81)], [⟨1, -19, "pro", some "r1", 81⟩]⟩, true) ∧
    deduct_credits_idempotent ⟨[(1, 81)], [⟨1, -19, "pro", some "r1", 81⟩]⟩ 1 19 "pro" "r1" =
      some (⟨[(1, 81)], [⟨1, -19, "pro", some "r1", 81⟩]⟩, true) ∧
    pairCount [⟨1, -19, "pro", some "r1", 81⟩] "pro" (some "r1") = 1 ∧
    ¬ ((deduct_credits_idempotent ⟨[(1, 100)], []⟩ 1 19 "pro" "r1").map Prod.snd ≠
       (deduct_credits_idempotent ⟨[(1, 81)], [⟨1, -19, "pro", some "r1", 81⟩]⟩ 1 19
          "pro" "r1").map Prod.snd) := by
  decide

/-- C4 (amended): repeated idempotent deduction with the same reference id
writes exactly one debit row — the first call appends it, every repeat leaves
the state untouched — and the `(reason, reference_id)` pair count stays at
most 1; but the boolean result reports `true` both for the fresh debit and
for the repeat (only InsufficientBalance is distinguishable, as `false`). -/
theorem C4_idempotent_debit (db : Db) (u : Nat) (amount : Int) (reason ref : String)
    (bal : Int)
    (huser : alookup db.users u = some bal)
    (hfresh : db.ledger.any
      (fun e => decide (e.reference_id = some ref) && decide (e.amount < 0)) = false)
    (hpair : ledgerHasPair db.ledger reason (some ref) = false)
    (hamt : 0 < amount) :
    (bal < amount → deduct_credits_idempotent db u amount reason ref = some (db, false)) ∧
    (¬ bal < amount →
      deduct_credits_idempotent db u amount reason ref =
        some (⟨aset db.users u (bal + -amount),
               db.ledger ++ [⟨u, -amount, reason, some ref, bal + -amount⟩]⟩, true) ∧
      deduct_credits_idempotent
          ⟨aset db.users u (bal + -amount),
           db.ledger ++ [⟨u, -amount, reason, some ref, bal + -amount⟩]⟩
          u amount reason ref =
        some (⟨aset db.users u (bal + -amount),
               db.ledger ++ [⟨u, -amount, reason, some ref, bal + -amount⟩]⟩, true) ∧
      pairCount (db.ledger ++ [⟨u, -amount, reason, some ref, bal + -amount⟩])
        reason (some ref) = 1 ∧
      (uniqueLedger db.ledger →
        uniqueLedger (db.ledger ++ [⟨u, -amount, reason, some ref, bal + -amount⟩]))) := by
  have hneg : (-amount : Int) < 0 := by omega
  constructor
  · intro hlt
    simp [deduct_credits_idempotent, hfresh, huser, hlt]
  · intro hge
    refine ⟨?_, ?_, ?_, ?_⟩
    · simp [deduct_credits_idempotent, hfresh, huser, hge, record_credit_change, hpair]
    · simp [deduct_credits_idempotent, List.any_append, hfresh, hneg]
    · rw [pairCount_append, pairCount_eq_zero db.ledger reason (some ref) hpair]
      simp [pairCount]
    · intro huniq
      refine uniqueLedger_append db.ledger _ huniq ?_
      intro ref2 heq
      have : ref2 = ref := by simpa using heq.symm
      subst this
      exact hpair

/-- C4 witness: the amended theorem applied to user 2 at balance 100, cost
19, reference `w1`. -/
theorem C4_idempotent_debit_witness :
    ((100 : Int) < 19 → deduct_credits_idempotent ⟨[(2, 100)], []⟩ 2 19 "pro" "w1" =
      some (⟨[(2, 100)], []⟩, false)) ∧
    (¬ (100 : Int) < 19 →
      deduct_credits_idempotent ⟨[(2, 100)], []⟩ 2 19 "pro" "w1" =
        some (⟨aset [(2, 100)] 2 (100 + -19),
               [] ++ [⟨2, -19, "pro", some "w1", 100 + -19⟩]⟩, true) ∧
      deduct_credits_idempotent
          ⟨aset [(2, 100)] 2 (100 + -19), [] ++ [⟨2, -19, "pro", some "w1", 100 + -19⟩]⟩
          2 19 "pro" "w1" =
        some (⟨aset [(2, 100)] 2 (100 + -19),
               [] ++ [⟨2, -19, "pro", some "w1", 100 + -19⟩]⟩, true) ∧
      pairCount ([] ++ [⟨2, -19, "pro", some "w1", 100 + -19⟩]) "pro" (some "w1") = 1 ∧
      (uniqueLedger [] →
        uniqueLedger ([] ++ [⟨2, -19, "pro", some "w1", 100 + -19⟩]))) :=
  C4_idempotent_debit ⟨[(2, 100)], []⟩ 2 19 "pro" "w1" 100
    (by decide) (by decide) (by decide) (by decide)

theorem alookup_mem [DecidableEq κ] {l : List (κ × α)} {k : κ} {v : α}
    (h : alookup l k = some v) : (k, v) ∈ l := by
  induction l with
  | nil => simp [alookup] at h
  | cons p ps ih =>
    rcases p with ⟨k1, v1⟩
    by_cases hp : k1 = k
    · subst hp
      have hv : v1 = v := by simpa [alookup] using h
      subst hv
      exact List.mem_cons_self _ _
    · exact List.mem_cons_of_mem _ (ih (by simpa [alookup, hp] using h))

theorem user_queue_count_nonneg (r : Redis) (u : Nat) (h : countersPositive r) :
    0 ≤ user_queue_count r u := by
  unfold user_queue_count
  rcases hl : alookup r.userQueue u with _ | v
  · simp
  · simpa using le_of_lt (h (u, v) (alookup_mem hl))

theorem countersPos_adel (l : List (Nat × Int)) (u : Nat) (h : ∀ p ∈ l, 0 < p.2) :
    ∀ p ∈ adel l u, 0 < p.2 :=
  fun p hp => h p (mem_adel hp)

theorem countersPos_aset (l : List (Nat × Int)) (u : Nat) (v : Int) (hv : 0 < v)
    (h : ∀ p ∈ l, 0 < p.2) : ∀ p ∈ aset l u v, 0 < p.2 := by
  intro p hp
  rcases mem_aset hp with h1 | h1
  · exact h p h1
  · subst h1
    exact hv

theorem countersPositive_decr (r : Redis) (u : Nat)
    (h : ∀ p ∈ r.userQueue, 0 < p.2) :
    ∀ p ∈ (decr_user_queue_count r u).userQueue, 0 < p.2 := by
  by_cases hc : user_queue_count r u - 1 ≤ 0
  · simpa [decr_user_queue_count, hc] using countersPos_adel r.userQueue u h
  · simpa [decr_user_queue_count, hc] using
      countersPos_aset r.userQueue u (user_queue_count r u - 1) (by omega) h

theorem countersPositive_incr (r : Redis) (u : Nat)
    (hpos : 0 ≤ user_queue_count r u)
    (h : ∀ p ∈ r.userQueue, 0 < p.2) :
    ∀ p ∈ (incr_user_queue_count r u).1.userQueue, 0 < p.2 := by
  simpa [incr_user_queue_count] using
    countersPos_aset r.userQueue u (user_queue_count r u + 1) (by omega) h

theorem write_push_userQueue (r : Redis) (rf : Bool) (tid : String) (p : TaskPayload)
    (pos : Nat) : (enqueue_write_and_push r rf tid p pos).1.userQueue = r.userQueue := by
  rcases rf <;> simp [enqueue_write_and_push]

theorem countersPositive_user_phase (cfg : Settings) (r : Redis) (rf : Bool)
    (tid : String) (p : TaskPayload) (pos : Nat)
    (h : ∀ q ∈ r.userQueue, 0 < q.2) :
    ∀ q ∈ (enqueue_user_phase cfg r rf tid p pos).1.userQueue, 0 < q.2 := by
  unfold enqueue_user_phase
  by_cases htel : p.telegram_id ≠ 0
  · rw [if_pos htel]
    by_cases hcur : user_queue_count r p.telegram_id ≥ cfg.MAX_QUEUED_TASKS_PER_USER
    · rw [if_pos hcur]
      exact h
    · rw [if_neg hcur]
      have hnn : 0 ≤ user_queue_count r p.telegram_id := by
        rcases hl : alookup r.userQueue p.telegram_id with _ | v
        · simp [user_queue_count, hl]
        · have := h (p.telegram_id, v) (alookup_mem hl)
          simp only [user_queue_count, hl, Option.getD_some]
          omega
      have hincr := countersPositive_incr r p.telegram_id hnn h
      by_cases hover :
          (incr_user_queue_count r p.telegram_id).2 > cfg.MAX_QUEUED_TASKS_PER_USER
      · rw [if_pos hover]
        exact countersPositive_decr _ p.telegram_id hincr
      · rw [if_neg hover]
        intro q hq
        rw [write_push_userQueue] at hq
        exact hincr q hq
  · rw [if_neg htel]
    intro q hq
    rw [write_push_userQueue] at hq
    exact h q hq

theorem countersPositive_enqueue (cfg : Settings) (r : Redis) (lf rf : Bool)
    (tid : String) (p : TaskPayload) (h : ∀ q ∈ r.userQueue, 0 < q.2) :
    ∀ q ∈ (enqueue_task cfg r lf rf tid p).1.userQueue, 0 < q.2 := by
  unfold enqueue_task
  rcases lf
  · rw [if_neg (by simp)]
    by_cases hq : (r.queue.length : Int) ≥ cfg.MAX_GLOBAL_QUEUE_SIZE
    · rw [if_pos hq]
      exact h
    · rw [if_neg hq]
      exact countersPositive_user_phase cfg r rf tid p r.queue.length h
  · rw [if_pos rfl]
    exact countersPositive_user_phase cfg r rf tid p 0 h

theorem countersPositive_dequeue (r : Redis) (h : ∀ q ∈ r.userQueue, 0 < q.2) :
    ∀ q ∈ (dequeue_task r).1.userQueue, 0 < q.2 := by
  unfold dequeue_task
  rcases hq : r.queue with _ | ⟨tid, rest⟩
  · exact h
  · rcases hl : alookup r.tasks tid with _ | payload
    · simp only [hl]
      exact h
    · simp only [hl]
      by_cases htel : payload.telegram_id ≠ 0
      · rw [if_pos htel]
        exact countersPositive_decr _ payload.telegram_id h
      · rw [if_neg htel]
        exact h

theorem countersPositive_cancel (r : Redis) (tid : String)
    (h : ∀ q ∈ r.userQueue, 0 < q.2) :
    ∀ q ∈ (cancel_task r tid).1.userQueue, 0 < q.2 := by
  rcases hl : alookup r.tasks tid with _ | payload
  · simpa [cancel_task, hl] using h
  · by_cases hs : payload.status = TASK_STATUS_QUEUED
    · by_cases htel : payload.telegram_id ≠ 0
      · have hd := countersPositive_decr
          ⟨aset r.tasks tid { payload with status := TASK_STATUS_CANCELLED },
           r.queue.erase tid, r.userQueue, r.activeGen⟩ payload.telegram_id h
        simpa [cancel_task, hl, hs, htel] using hd
      · simpa [cancel_task, hl, hs, htel] using h
    · simpa [cancel_task, hl, hs] using h

theorem countersPositive_cancel_processing (r : Redis) (tid : String)
    (h : ∀ q ∈ r.userQueue, 0 < q.2) :
    ∀ q ∈ (cancel_processing_task r tid).1.userQueue, 0 < q.2 := by
  rcases hl : alookup r.tasks tid with _ | payload
  · simpa [cancel_processing_task, hl] using h
  · by_cases hs : payload.status = TASK_STATUS_PROCESSING
    · simpa [cancel_processing_task, hl, hs] using h
    · simpa [cancel_processing_task, hl, hs] using h

theorem countersPositive_set_status (r : Redis) (tid st : String)
    (h : ∀ q ∈ r.userQueue, 0 < q.2) :
    ∀ q ∈ (set_task_status r tid st).userQueue, 0 < q.2 := by
  unfold set_task_status
  rcases hl : alookup r.tasks tid with _ | payload
  · exact h
  · exact h

theorem countersPositive_applyQueueOp (cfg : Settings) (r : Redis) (op : QueueOp)
    (h : countersPositive r) : countersPositive (applyQueueOp cfg r op) := by
  cases op with
  | enq lf rf tid p => exact countersPositive_enqueue cfg r lf rf tid p h
  | deq => exact countersPositive_dequeue r h
  | cancelQueued tid => exact countersPositive_cancel r tid h
  | cancelProcessing tid => exact countersPositive_cancel_processing r tid h
  | setStatus tid st => exact countersPositive_set_status r tid st h

theorem countersLe_adel (l : List (Nat × Int)) (u : Nat) (M : Int)
    (h : ∀ p ∈ l, p.2 ≤ M) : ∀ p ∈ adel l u, p.2 ≤ M :=
  fun p hp => h p (mem_adel hp)

theorem countersLe_aset (l : List (Nat × Int)) (u : Nat) (v M : Int) (hv : v ≤ M)
    (h : ∀ p ∈ l, p.2 ≤ M) : ∀ p ∈ aset l u v, p.2 ≤ M := by
  intro p hp
  rcases mem_aset hp with h1 | h1
  · exact h p h1
  · subst h1
    exact hv

theorem countersLe_decr (r : Redis) (u : Nat) (M : Int)
    (h : ∀ p ∈ r.userQueue, p.2 ≤ M) :
    ∀ p ∈ (decr_user_queue_count r u).userQueue, p.2 ≤ M := by
  by_cases hc : user_queue_count r u - 1 ≤ 0
  · simpa [decr_user_queue_count, hc] using countersLe_adel r.userQueue u M h
  · have hcnt : user_queue_count r u - 1 ≤ M := by
      rcases hl : alookup r.userQueue u with _ | v
      · simp [user_queue_count, hl] at hc
      · have := h (u, v) (alookup_mem hl)
        simp only [user_queue_count, hl, Option.getD_some]
        omega
    simpa [decr_user_queue_count, hc] using
      countersLe_aset r.userQueue u (user_queue_count r u - 1) M hcnt h

theorem write_push_queue_length (r : Redis) (rf : Bool) (tid : String) (p : TaskPayload)
    (pos : Nat) :
    (enqueue_write_and_push r rf tid p pos).1.queue.length ≤ r.queue.length + 1 := by
  rcases rf <;> simp [enqueue_write_and_push]

theorem incr_queue (r : Redis) (u : Nat) :
    (incr_user_queue_count r u).1.queue = r.queue := by
  simp [incr_user_queue_count]

theorem user_phase_caps (cfg : Settings) (r : Redis) (rf : Bool) (tid : String)
    (p : TaskPayload) (pos : Nat)
    (hlen : (r.queue.length : Int) < cfg.MAX_GLOBAL_QUEUE_SIZE)
    (hu : ∀ q ∈ r.userQueue, q.2 ≤ cfg.MAX_QUEUED_TASKS_PER_USER) :
    queueCapsOk cfg (enqueue_user_phase cfg r rf tid p pos).1 := by
  unfold enqueue_user_phase
  by_cases htel : p.telegram_id ≠ 0
  · rw [if_pos htel]
    by_cases hcur : user_queue_count r p.telegram_id ≥ cfg.MAX_QUEUED_TASKS_PER_USER
    · rw [if_pos hcur]
      refine ⟨?_, hu⟩
      show (r.queue.length : Int) ≤ cfg.MAX_GLOBAL_QUEUE_SIZE
      omega
    · rw [if_neg hcur]
      have hle : user_queue_count r p.telegram_id + 1 ≤ cfg.MAX_QUEUED_TASKS_PER_USER := by
        omega
      have hbound : ∀ q ∈ (incr_user_queue_count r p.telegram_id).1.userQueue,
          q.2 ≤ cfg.MAX_QUEUED_TASKS_PER_USER := by
        simpa [incr_user_queue_count] using
          countersLe_aset r.userQueue p.telegram_id (user_queue_count r p.telegram_id + 1)
            cfg.MAX_QUEUED_TASKS_PER_USER hle hu
      by_cases hover :
          (incr_user_queue_count r p.telegram_id).2 > cfg.MAX_QUEUED_TASKS_PER_USER
      · rw [if_pos hover]
        refine ⟨?_, countersLe_decr _ p.telegram_id _ hbound⟩
        have hq : (decr_user_queue_count (incr_user_queue_count r p.telegram_id).1
            p.telegram_id).queue = r.queue := by
          rw [decr_queue, incr_queue]
        rw [hq]
        omega
      · rw [if_neg hover]
        refine ⟨?_, ?_⟩
        · have h1 := write_push_queue_length (incr_user_queue_count r p.telegram_id).1
            rf tid p pos
          rw [incr_queue] at h1
          omega
        · intro q hq
          rw [write_push_userQueue] at hq
          exact hbound q hq
  · rw [if_neg htel]
    refine ⟨?_, ?_⟩
    · have h1 := write_push_queue_length r rf tid p pos
      omega
    · intro q hq
      rw [write_push_userQueue] at hq
      exact hu q hq

theorem enqueue_caps (cfg : Settings) (r : Redis) (rf : Bool) (tid : String)
    (p : TaskPayload) (h : queueCapsOk cfg r) :
    queueCapsOk cfg (enqueue_task cfg r false rf tid p).1 := by
  obtain ⟨hg, hu⟩ := h
  unfold enqueue_task
  rw [if_neg (by simp)]
  by_cases hq : (r.queue.length : Int) ≥ cfg.MAX_GLOBAL_QUEUE_SIZE
  · rw [if_pos hq]
    exact ⟨hg, hu⟩
  · rw [if_neg hq]
    exact user_phase_caps cfg r rf tid p r.queue.length (by omega) hu

theorem dequeue_queue_len (r : Redis) :
    (dequeue_task r).1.queue.length ≤ r.queue.length := by
  unfold dequeue_task
  rcases hq : r.queue with _ | ⟨tid, rest⟩
  · simp [hq]
  · rcases hl : alookup r.tasks tid with _ | payload
    · simp [hl, hq]
    · simp only [hl]
      by_cases htel : payload.telegram_id ≠ 0
      · rw [if_pos htel]
        rw [decr_queue]
        simp [hq]
      · rw [if_neg htel]
        simp [hq]

theorem countersLe_dequeue (r : Redis) (M : Int)
    (h : ∀ q ∈ r.userQueue, q.2 ≤ M) :
    ∀ q ∈ (dequeue_task r).1.userQueue, q.2 ≤ M := by
  unfold dequeue_task
  rcases hq : r.queue with _ | ⟨tid, rest⟩
  · exact h
  · rcases hl : alookup r.tasks tid with _ | payload
    · simp only [hl]
      exact h
    · simp only [hl]
      by_cases htel : payload.telegram_id ≠ 0
      · rw [if_pos htel]
        exact countersLe_decr _ payload.telegram_id M h
      · rw [if_neg htel]
        exact h

theorem cancel_queue_len (r : Redis) (tid : String) :
    (cancel_task r tid).1.queue.length ≤ r.queue.length := by
  rcases hl : alookup r.tasks tid with _ | payload
  · simp [cancel_task, hl]
  · by_cases hs : payload.status = TASK_STATUS_QUEUED
    · by_cases htel : payload.telegram_id ≠ 0
      · have h1 : (cancel_task r tid).1.queue = r.queue.erase tid := by
          simp [cancel_task, hl, hs, htel, decr_queue]
        rw [h1]
        exact (List.erase_sublist tid r.queue).length_le
      · have h1 : (cancel_task r tid).1.queue = r.queue.erase tid := by
          simp [cancel_task, hl, hs, htel]
        rw [h1]
        exact (List.erase_sublist tid r.queue).length_le
    · simp [cancel_task, hl, hs]

theorem countersLe_cancel (r : Redis) (tid : String) (M : Int)
    (h : ∀ q ∈ r.userQueue, q.2 ≤ M) :
    ∀ q ∈ (cancel_task r tid).1.userQueue, q.2 ≤ M := by
  rcases hl : alookup r.tasks tid with _ | payload
  · simpa [cancel_task, hl] using h
  · by_cases hs : payload.status = TASK_STATUS_QUEUED
    · by_cases htel : payload.telegram_id ≠ 0
      · have hd := countersLe_decr
          ⟨aset r.tasks tid { payload with status := TASK_STATUS_CANCELLED },
           r.queue.erase tid, r.userQueue, r.activeGen⟩ payload.telegram_id M h
        simpa [cancel_task, hl, hs, htel] using hd
      · simpa [cancel_task, hl, hs, htel] using h
    · simpa [cancel_task, hl, hs] using h

theorem cancel_processing_queue (r : Redis) (tid : String) :
    (cancel_processing_task r tid).1.queue = r.queue := by
  rcases hl : alookup r.tasks tid with _ | payload
  · simp [cancel_processing_task, hl]
  · by_cases hs : payload.status = TASK_STATUS_PROCESSING
    · simp [cancel_processing_task, hl, hs]
    · simp [cancel_processing_task, hl, hs]

theorem cancel_processing_userQueue (r : Redis) (tid : String) :
    (cancel_processing_task r tid).1.userQueue = r.userQueue := by
  rcases hl : alookup r.tasks tid with _ | payload
  · simp [cancel_processing_task, hl]
  · by_cases hs : payload.status = TASK_STATUS_PROCESSING
    · simp [cancel_processing_task, hl, hs]
    · simp [cancel_processing_task, hl, hs]

theorem set_status_queue (r : Redis) (tid st : String) :
    (set_task_status r tid st).queue = r.queue := by
  rcases hl : alookup r.tasks tid with _ | payload
  · simp [set_task_status, hl]
  · simp [set_task_status, hl]

theorem set_status_userQueue (r : Redis) (tid st : String) :
    (set_task_status r tid st).userQueue = r.userQueue := by
  rcases hl : alookup r.tasks tid with _ | payload
  · simp [set_task_status, hl]
  · simp [set_task_status, hl]

theorem queueCapsOk_applyQueueOp (cfg : Settings) (r : Redis) (op : QueueOp)
    (h : queueCapsOk cfg r) (hop : llenOk op) :
    queueCapsOk cfg (applyQueueOp cfg r op) := by
  cases op with
  | enq lf rf tid p =>
    have hlf : lf = false := hop
    subst hlf
    exact enqueue_caps cfg r rf tid p h
  | deq =>
    obtain ⟨hg, hu⟩ := h
    refine ⟨?_, countersLe_dequeue r _ hu⟩
    have := dequeue_queue_len r
    simp only [applyQueueOp]
    omega
  | cancelQueued tid =>
    obtain ⟨hg, hu⟩ := h
    refine ⟨?_, countersLe_cancel r tid _ hu⟩
    have := cancel_queue_len r tid
    simp only [applyQueueOp]
    omega
  | cancelProcessing tid =>
    obtain ⟨hg, hu⟩ := h
    refine ⟨?_, ?_⟩
    · simp only [applyQueueOp]
      rw [cancel_processing_queue]
      exact hg
    · simp only [applyQueueOp]
      rw [cancel_processing_userQueue]
      exact hu
  | setStatus tid st =>
    obtain ⟨hg, hu⟩ := h
    refine ⟨?_, ?_⟩
    · simp only [applyQueueOp]
      rw [set_status_queue]
      exact hg
    · simp only [applyQueueOp]
      rw [set_status_userQueue]
      exact hu

set_option maxRecDepth 4000 in
/-- C8 counterexample: the global-length check is best-effort.  With the
default caps (global cap 500) and the queue already holding 500 ids, an
enqueue whose LLEN call errors is not rejected: it pushes the task and the
list length reaches 501 > `MAX_GLOBAL_QUEUE_SIZE`, violating the cap. -/
theorem C8_llen_failure_breaks_global_cap :
    (enqueue_task defaultSettings ⟨[], List.replicate 500 "x", [], []⟩ true false "t1"
        ⟨7, 1, 19, "t1", false, ""⟩).2 = .ok 0 ∧
    ((enqueue_task defaultSettings ⟨[], List.replicate 500 "x", [], []⟩ true false "t1"
        ⟨7, 1, 19, "t1", false, ""⟩).1.queue.length : Int) =
      defaultSettings.MAX_GLOBAL_QUEUE_SIZE + 1 := by
  decide

/-- C8 (amended): as long as every global-length check succeeds, the caps are
invariants of every reachable state — from a state within both caps, any
interleaving of enqueues, dequeues, cancels and status writes stays within
both caps — and an enqueue that would exceed a cap is rejected with
`QueueLimitError` leaving the state unchanged: `global_queue_full` when the
list is at the global cap, `user_queue_limit` when the user's counter is at
the per-user cap.  When the LLEN call itself errors, the global check is
skipped (see the counterexample). -/
theorem C8_queue_caps (cfg : Settings) (r : Redis) (ops : List QueueOp)
    (h : queueCapsOk cfg r) (hops : ∀ op ∈ ops, llenOk op) :
    queueCapsOk cfg (runQueueOps cfg r ops) ∧
    (∀ rf tid p, (r.queue.length : Int) ≥ cfg.MAX_GLOBAL_QUEUE_SIZE →
      enqueue_task cfg r false rf tid p = (r, .queueLimit "global_queue_full")) ∧
    (∀ rf tid p, p.telegram_id ≠ 0 →
      user_queue_count r p.telegram_id ≥ cfg.MAX_QUEUED_TASKS_PER_USER →
      (r.queue.length : Int) < cfg.MAX_GLOBAL_QUEUE_SIZE →
      enqueue_task cfg r false rf tid p = (r, .queueLimit "user_queue_limit")) := by
  refine ⟨?_, ?_, ?_⟩
  · induction ops generalizing r with
    | nil => simpa [runQueueOps] using h
    | cons op rest ih =>
      have h1 := queueCapsOk_applyQueueOp cfg r op h (hops op (List.mem_cons_self op rest))
      have hrest : ∀ op2 ∈ rest, llenOk op2 := fun op2 hm =>
        hops op2 (List.mem_cons_of_mem op hm)
      simpa [runQueueOps, List.foldl] using ih (applyQueueOp cfg r op) h1 hrest
  · intro rf tid p hfull
    unfold enqueue_task
    rw [if_neg (by simp), if_pos hfull]
  · intro rf tid p htel hcur hlen
    unfold enqueue_task
    rw [if_neg (by simp), if_neg (by omega)]
    unfold enqueue_user_phase
    rw [if_pos htel, if_pos hcur]

/-- C8 witness: from a state with one queued id and user 7 at the per-user
cap 3, a concrete interleaving keeps both caps, and an enqueue for user 7 is
rejected with `user_queue_limit` without state change. -/
theorem C8_queue_caps_witness :
    queueCapsOk defaultSettings (runQueueOps defaultSettings
      ⟨[("a", ⟨7, 1, 19, "a", false, "queued"⟩)], ["a"], [(7, 3)], []⟩
      [.enq false false "b" ⟨9, 2, 19, "b", false, ""⟩, .deq, .setStatus "a" "failed"]) ∧
    (∀ rf tid p,
      ((["a"] : List String).length : Int) ≥ defaultSettings.MAX_GLOBAL_QUEUE_SIZE →
      enqueue_task defaultSettings
          ⟨[("a", ⟨7, 1, 19, "a", false, "queued"⟩)], ["a"], [(7, 3)], []⟩ false rf tid p =
        (⟨[("a", ⟨7, 1, 19, "a", false, "queued"⟩)], ["a"], [(7, 3)], []⟩,
         .queueLimit "global_queue_full")) ∧
    (∀ rf tid p, p.telegram_id ≠ 0 →
      user_queue_count ⟨[("a", ⟨7, 1, 19, "a", false, "queued"⟩)], ["a"], [(7, 3)], []⟩
          p.telegram_id ≥ defaultSettings.MAX_QUEUED_TASKS_PER_USER →
      ((["a"] : List String).length : Int) < defaultSettings.MAX_GLOBAL_QUEUE_SIZE →
      enqueue_task defaultSettings
          ⟨[("a", ⟨7, 1, 19, "a", false, "queued"⟩)], ["a"], [(7, 3)], []⟩ false rf tid p =
        (⟨[("a", ⟨7, 1, 19, "a", false, "queued"⟩)], ["a"], [(7, 3)], []⟩,
         .queueLimit "user_queue_limit")) :=
  C8_queue_caps defaultSettings
    ⟨[("a", ⟨7, 1, 19, "a", false, "queued"⟩)], ["a"], [(7, 3)], []⟩
    [.enq false false "b" ⟨9, 2, 19, "b", false, ""⟩, .deq, .setStatus "a" "failed"]
    (by exact ⟨by decide, by simp [defaultSettings]⟩)
    (by simp [llenOk])

theorem hasPair_of_fresh (l : List LedgerRow) (rsn x : String)
    (h : l.all (fun e => decide (e.reference_id ≠ some x)) = true) :
    ledgerHasPair l rsn (some x) = false := by
  simp only [List.all_eq_true, decide_eq_true_eq] at h
  simp only [ledgerHasPair, List.any_eq_false, Bool.and_eq_true, decide_eq_true_eq, not_and]
  intro e he _
  exact h e he

theorem anyNeg_of_fresh (l : List LedgerRow) (x : String)
    (h : l.all (fun e => decide (e.reference_id ≠ some x)) = true) :
    l.any (fun e => decide (e.reference_id = some x) && decide (e.amount < 0)) = false := by
  simp only [List.all_eq_true, decide_eq_true_eq] at h
  simp only [List.any_eq_false, Bool.and_eq_true, decide_eq_true_eq, not_and]
  intro e he heq
  exact absurd heq (h e he)

theorem hasPair_append (l1 l2 : List LedgerRow) (rsn : String) (ref : Option String) :
    ledgerHasPair (l1 ++ l2) rsn ref =
      (ledgerHasPair l1 rsn ref || ledgerHasPair l2 rsn ref) := by
  simp [ledgerHasPair, List.any_append]

theorem record_shape (db : Db) (u : Nat) (a : Int) (rsn x : String) (bal : Int)
    (hu : alookup db.users u = some bal)
    (hp : ledgerHasPair db.ledger rsn (some x) = false) :
    record_credit_change db u a rsn (some x) =
      some ⟨aset db.users u (bal + a), db.ledger ++ [⟨u, a, rsn, some x, bal + a⟩]⟩ := by
  unfold record_credit_change
  rw [hu]
  simp [hp]

theorem acquire_lock_held (r : Redis) (u : Nat) (tid tid0 : String)
    (h : alookup r.activeGen u = some tid0) :
    acquire_generation_lock r u tid = (r, false) := by
  unfold acquire_generation_lock
  rw [h]

theorem acquire_lock_free (r : Redis) (u : Nat) (tid : String)
    (h : alookup r.activeGen u = none) :
    acquire_generation_lock r u tid =
      ({ r with activeGen := aset r.activeGen u tid }, true) := by
  unfold acquire_generation_lock
  rw [h]

theorem enqueue_task_global_full (cfg : Settings) (r : Redis) (rf : Bool) (tid : String)
    (p : TaskPayload) (hfull : (r.queue.length : Int) ≥ cfg.MAX_GLOBAL_QUEUE_SIZE) :
    enqueue_task cfg r false rf tid p = (r, .queueLimit "global_queue_full") := by
  unfold enqueue_task
  rw [if_neg (by simp), if_pos hfull]

theorem enqueue_task_user_full (cfg : Settings) (r : Redis) (rf : Bool) (tid : String)
    (p : TaskPayload) (htel : p.telegram_id ≠ 0)
    (hlen : (r.queue.length : Int) < cfg.MAX_GLOBAL_QUEUE_SIZE)
    (hcap : user_queue_count r p.telegram_id ≥ cfg.MAX_QUEUED_TASKS_PER_USER) :
    enqueue_task cfg r false rf tid p = (r, .queueLimit "user_queue_limit") := by
  unfold enqueue_task
  rw [if_neg (by simp), if_neg (by omega)]
  unfold enqueue_user_phase
  rw [if_pos htel, if_pos hcap]

/-- Debit followed by refund for a fresh request id: the charge succeeds,
the refund succeeds and the user's balance is back to its original value. -/
theorem charge_then_refund (db : Db) (u : Nat) (cost : Int) (rid : String) (bal : Int)
    (huser : alookup db.users u = some bal)
    (hfresh : db.ledger.all (fun e => decide (e.reference_id ≠ some rid)) = true)
    (hfresh2 : db.ledger.all
      (fun e => decide (e.reference_id ≠ some ("refund_" ++ rid))) = true)
    (hbal : ¬ bal < cost) :
    check_and_charge db u false cost rid =
      some (⟨aset db.users u (bal + -cost),
             db.ledger ++ [⟨u, -cost, "pro", some rid, bal + -cost⟩]⟩, true) ∧
    refund_if_needed
        ⟨aset db.users u (bal + -cost),
         db.ledger ++ [⟨u, -cost, "pro", some rid, bal + -cost⟩]⟩ u false cost rid =
      some ⟨aset (aset db.users u (bal + -cost)) u (bal + -cost + cost),
            (db.ledger ++ [⟨u, -cost, "pro", some rid, bal + -cost⟩]) ++
              [⟨u, cost, "refund", some ("refund_" ++ rid), bal + -cost + cost⟩]⟩ ∧
    alookup (aset (aset db.users u (bal + -cost)) u (bal + -cost + cost)) u = some bal := by
  have hf1 := anyNeg_of_fresh db.ledger rid hfresh
  have hp0 := hasPair_of_fresh db.ledger "pro" rid hfresh
  have hp2 := hasPair_of_fresh db.ledger "refund" ("refund_" ++ rid) hfresh2
  refine ⟨?_, ?_, ?_⟩
  · have hrec := record_shape db u (-cost) "pro" rid bal huser hp0
    simp [check_and_charge, deduct_credits_idempotent, hf1, huser, hbal, hrec]
  · have hu1 : alookup (aset db.users u (bal + -cost)) u = some (bal + -cost) :=
      alookup_aset db.users u (bal + -cost)
    have hp1 : ledgerHasPair
        (db.ledger ++ [⟨u, -cost, "pro", some rid, bal + -cost⟩])
        "refund" (some ("refund_" ++ rid)) = false := by
      rw [hasPair_append, hp2]
      simp [ledgerHasPair]
    have hrec2 := record_shape
      ⟨aset db.users u (bal + -cost),
       db.ledger ++ [⟨u, -cost, "pro", some rid, bal + -cost⟩]⟩
      u cost "refund" ("refund_" ++ rid) (bal + -cost) hu1 hp1
    simpa [refund_if_needed, refund_generation] using hrec2
  · rw [alookup_aset]
    exact congrArg some (by omega)

/-- C5 counterexample: an enqueue error after the task-record write is not
fully compensated.  User 1 (balance 50, non-admin, cost 19) passes charge and
lock, `enqueue_task` writes the `task:r1` record and increments the per-user
counter, and then the RPUSH raises.  The handler refunds the debit (balance
back to 50) and releases the lock, but the exception propagates with the task
record still in the store and the counter still incremented — the caller
observes partial state, contradicting the claim. -/
theorem C5_enqueue_error_leaves_task_record :
    (enqueue_generation defaultSettings
        ⟨⟨[(1, 50)], []⟩, ⟨[], [], [], []⟩, ⟨none, []⟩⟩ 7 1 false 19 "r1" false true).2 =
      .raised ∧
    alookup (enqueue_generation defaultSettings
        ⟨⟨[(1, 50)], []⟩, ⟨[], [], [], []⟩, ⟨none, []⟩⟩ 7 1 false 19 "r1" false
        true).1.redis.tasks "r1" = some ⟨7, 1, 19, "r1", false, "queued"⟩ ∧
    alookup (enqueue_generation defaultSettings
        ⟨⟨[(1, 50)], []⟩, ⟨[], [], [], []⟩, ⟨none, []⟩⟩ 7 1 false 19 "r1" false
        true).1.redis.userQueue 7 = some 1 ∧
    alookup (enqueue_generation defaultSettings
        ⟨⟨[(1, 50)], []⟩, ⟨[], [], [], []⟩, ⟨none, []⟩⟩ 7 1 false 19 "r1" false
        true).1.db.users 1 = some 50 ∧
    alookup (enqueue_generation defaultSettings
        ⟨⟨[(1, 50)], []⟩, ⟨[], [], [], []⟩, ⟨none, []⟩⟩ 7 1 false 19 "r1" false
        true).1.redis.activeGen 7 = none := by
  decide

/-- C5 (amended): the four admission gates that report a typed rejection are
fully compensated.  For a non-admin user with a fresh request id: an
insufficient balance leaves the state untouched; a held active lock makes the
path refund the debit (net balance unchanged) and touch nothing else; the
per-user-cap and global-cap rejections refund the debit, release the lock and
leave balance, queue list, task record, lock entry and counters exactly as
before the call.  (An enqueue error after the task-record write is
compensated only partially — see the counterexample.) -/
theorem C5_gate_failures_compensated (cfg : Settings) (s : Sys)
    (telegram_id user_id : Nat) (cost : Int) (request_id : String) (rpushFails : Bool)
    (bal : Int)
    (huser : alookup s.db.users user_id = some bal)
    (hfresh : s.db.ledger.all
      (fun e => decide (e.reference_id ≠ some request_id)) = true)
    (hfresh2 : s.db.ledger.all
      (fun e => decide (e.reference_id ≠ some ("refund_" ++ request_id))) = true)
    (htel : telegram_id ≠ 0) :
    (bal < cost →
      enqueue_generation cfg s telegram_id user_id false cost request_id false rpushFails =
        (s, .insufficientBalance)) ∧
    (¬ bal < cost → ∀ tid0, alookup s.redis.activeGen telegram_id = some tid0 →
      (enqueue_generation cfg s telegram_id user_id false cost request_id false
        rpushFails).2 = .alreadyActive ∧
      admissionCompensated s
        (enqueue_generation cfg s telegram_id user_id false cost request_id false
          rpushFails).1 telegram_id user_id request_id) ∧
    (¬ bal < cost → alookup s.redis.activeGen telegram_id = none →
      user_queue_count s.redis telegram_id ≥ cfg.MAX_QUEUED_TASKS_PER_USER →
      (s.redis.queue.length : Int) < cfg.MAX_GLOBAL_QUEUE_SIZE →
      (enqueue_generation cfg s telegram_id user_id false cost request_id false
        rpushFails).2 = .userQueueFull ∧
      admissionCompensated s
        (enqueue_generation cfg s telegram_id user_id false cost request_id false
          rpushFails).1 telegram_id user_id request_id) ∧
    (¬ bal < cost → alookup s.redis.activeGen telegram_id = none →
      (s.redis.queue.length : Int) ≥ cfg.MAX_GLOBAL_QUEUE_SIZE →
      (enqueue_generation cfg s telegram_id user_id false cost request_id false
        rpushFails).2 = .globalQueueFull ∧
      admissionCompensated s
        (enqueue_generation cfg s telegram_id user_id false cost request_id false
          rpushFails).1 telegram_id user_id request_id) := by
  have hf1 := anyNeg_of_fresh s.db.ledger request_id hfresh
  refine ⟨?_, ?_, ?_, ?_⟩
  · intro hlt
    have hc : check_and_charge s.db user_id false cost request_id = some (s.db, false) := by
      simp [check_and_charge, deduct_credits_idempotent, hf1, huser, hlt]
    simp [enqueue_generation, hc]
  · intro hbal tid0 hl
    obtain ⟨hcharge, hrefund, hback⟩ :=
      charge_then_refund s.db user_id cost request_id bal huser hfresh hfresh2 hbal
    have hacq := acquire_lock_held s.redis telegram_id request_id tid0 hl
    have hE : enqueue_generation cfg s telegram_id user_id false cost request_id false
        rpushFails =
        ({ s with db :=
            ⟨aset (aset s.db.users user_id (bal + -cost)) user_id (bal + -cost + cost),
             (s.db.ledger ++ [⟨user_id, -cost, "pro", some request_id, bal + -cost⟩]) ++
               [⟨user_id, cost, "refund", some ("refund_" ++ request_id),
                 bal + -cost + cost⟩]⟩ }, .alreadyActive) := by
      simp [enqueue_generation, hcharge, hacq, hrefund]
    rw [hE]
    exact ⟨rfl, hback.trans huser.symm, rfl, rfl, rfl, rfl⟩
  · intro hbal hl hcap hlen
    obtain ⟨hcharge, hrefund, hback⟩ :=
      charge_then_refund s.db user_id cost request_id bal huser hfresh hfresh2 hbal
    have hacq := acquire_lock_free s.redis telegram_id request_id hl
    have henq := enqueue_task_user_full cfg
      { s.redis with activeGen := aset s.redis.activeGen telegram_id request_id }
      rpushFails request_id
      ⟨telegram_id, user_id, cost, request_id, false, ""⟩
      htel (by simpa using hlen) (by simpa [user_queue_count] using hcap)
    have hE : enqueue_generation cfg s telegram_id user_id false cost request_id false
        rpushFails =
        ({ s with
            db :=
              ⟨aset (aset s.db.users user_id (bal + -cost)) user_id (bal + -cost + cost),
               (s.db.ledger ++ [⟨user_id, -cost, "pro", some request_id, bal + -cost⟩]) ++
                 [⟨user_id, cost, "refund", some ("refund_" ++ request_id),
                   bal + -cost + cost⟩]⟩,
            redis :=
              { s.redis with
                  activeGen := adel (aset s.redis.activeGen telegram_id request_id)
                    telegram_id } }, .userQueueFull) := by
      simp [enqueue_generation, hcharge, hacq, henq, hrefund, release_generation_lock]
    rw [hE]
    refine ⟨rfl, hback.trans huser.symm, rfl, rfl, ?_, rfl⟩
    show alookup (adel (aset s.redis.activeGen telegram_id request_id) telegram_id)
        telegram_id = alookup s.redis.activeGen telegram_id
    rw [alookup_adel, hl]
  · intro hbal hl hlen
    obtain ⟨hcharge, hrefund, hback⟩ :=
      charge_then_refund s.db user_id cost request_id bal huser hfresh hfresh2 hbal
    have hacq := acquire_lock_free s.redis telegram_id request_id hl
    have henq := enqueue_task_global_full cfg
      { s.redis with activeGen := aset s.redis.activeGen telegram_id request_id }
      rpushFails request_id
      ⟨telegram_id, user_id, cost, request_id, false, ""⟩
      (by simpa using hlen)
    have hE : enqueue_generation cfg s telegram_id user_id false cost request_id false
        rpushFails =
        ({ s with
            db :=
              ⟨aset (aset s.db.users user_id (bal + -cost)) user_id (bal + -cost + cost),
               (s.db.ledger ++ [⟨user_id, -cost, "pro", some request_id, bal + -cost⟩]) ++
                 [⟨user_id, cost, "refund", some ("refund_" ++ request_id),
                   bal + -cost + cost⟩]⟩,
            redis :=
              { s.redis with
                  activeGen := adel (aset s.redis.activeGen telegram_id request_id)
                    telegram_id } }, .globalQueueFull) := by
      simp [enqueue_generation, hcharge, hacq, henq, hrefund, release_generation_lock]
    rw [hE]
    refine ⟨rfl, hback.trans huser.symm, rfl, rfl, ?_, rfl⟩
    show alookup (adel (aset s.redis.activeGen telegram_id request_id) telegram_id)
        telegram_id = alookup s.redis.activeGen telegram_id
    rw [alookup_adel, hl]

/-- C5 witness: the amended theorem at a concrete state — user 1, balance 50,
cost 19, fresh request id `r1`, lock held by `other` for the alreadyActive
gate and queue at the global cap for the globalQueueFull gate are covered by
the instantiated conjunction. -/
theorem C5_gate_failures_compensated_witness :
    ((50 : Int) < 19 →
      enqueue_generation ⟨3, 2⟩
          ⟨⟨[(1, 50)], []⟩, ⟨[], ["x", "y"], [], [(7, "other")]⟩, ⟨none, []⟩⟩
          7 1 false 19 "r1" false false =
        (⟨⟨[(1, 50)], []⟩, ⟨[], ["x", "y"], [], [(7, "other")]⟩, ⟨none, []⟩⟩,
         .insufficientBalance)) ∧
    (¬ (50 : Int) < 19 → ∀ tid0,
      alookup ([(7, "other")] : List (Nat × String)) 7 = some tid0 →
      (enqueue_generation ⟨3, 2⟩
          ⟨⟨[(1, 50)], []⟩, ⟨[], ["x", "y"], [], [(7, "other")]⟩, ⟨none, []⟩⟩
          7 1 false 19 "r1" false false).2 = .alreadyActive ∧
      admissionCompensated
        ⟨⟨[(1, 50)], []⟩, ⟨[], ["x", "y"], [], [(7, "other")]⟩, ⟨none, []⟩⟩
        (enqueue_generation ⟨3, 2⟩
          ⟨⟨[(1, 50)], []⟩, ⟨[], ["x", "y"], [], [(7, "other")]⟩, ⟨none, []⟩⟩
          7 1 false 19 "r1" false false).1 7 1 "r1") ∧
    (¬ (50 : Int) < 19 →
      alookup ([(7, "other")] : List (Nat × String)) 7 = none →
      user_queue_count ⟨[], ["x", "y"], [], [(7, "other")]⟩ 7 ≥ (3 : Int) →
      (((["x", "y"] : List String).length : Int) < 2) →
      (enqueue_generation ⟨3, 2⟩
          ⟨⟨[(1, 50)], []⟩, ⟨[], ["x", "y"], [], [(7, "other")]⟩, ⟨none, []⟩⟩
          7 1 false 19 "r1" false false).2 = .userQueueFull ∧
      admissionCompensated
        ⟨⟨[(1, 50)], []⟩, ⟨[], ["x", "y"], [], [(7, "other")]⟩, ⟨none, []⟩⟩
        (enqueue_generation ⟨3, 2⟩
          ⟨⟨[(1, 50)], []⟩, ⟨[], ["x", "y"], [], [(7, "other")]⟩, ⟨none, []⟩⟩
          7 1 false 19 "r1" false false).1 7 1 "r1") ∧
    (¬ (50 : Int) < 19 →
      alookup ([(7, "other")] : List (Nat × String)) 7 = none →
      (((["x", "y"] : List String).length : Int) ≥ 2) →
      (enqueue_generation ⟨3, 2⟩
          ⟨⟨[(1, 50)], []⟩, ⟨[], ["x", "y"], [], [(7, "other")]⟩, ⟨none, []⟩⟩
          7 1 false 19 "r1" false false).2 = .globalQueueFull ∧
      admissionCompensated
        ⟨⟨[(1, 50)], []⟩, ⟨[], ["x", "y"], [], [(7, "other")]⟩, ⟨none, []⟩⟩
        (enqueue_generation ⟨3, 2⟩
          ⟨⟨[(1, 50)], []⟩, ⟨[], ["x", "y"], [], [(7, "other")]⟩, ⟨none, []⟩⟩
          7 1 false 19 "r1" false false).1 7 1 "r1") :=
  C5_gate_failures_compensated ⟨3, 2⟩
    ⟨⟨[(1, 50)], []⟩, ⟨[], ["x", "y"], [], [(7, "other")]⟩, ⟨none, []⟩⟩
    7 1 19 "r1" false 50 (by decide) (by decide) (by decide) (by decide)

/-- C6 counterexample: the amount check can run on unverified data.  Payment
`p1` (expected 100 RUB) is pending; a webhook claims 100 RUB; the provider's
verification response confirms status `succeeded` but carries no amount and
no currency (`none` fields), so the code falls back to the webhook-claimed
amount — and writes the ledger row.  A row is thus written although no
*verified* amount was compared against the stored expectation, contradicting
the claim as stated. -/
theorem C6_unverified_amount_fallback :
    (process_yookassa_webhook
        ⟨⟨[(1, 0)], []⟩, [⟨1, 100, 100, "pending", "p1", false⟩]⟩
        "payment.succeeded"
        ⟨some "p1", "succeeded", .val 100, "RUB"⟩
        (some ⟨some "succeeded", none, none⟩)).2 = true ∧
    (process_yookassa_webhook
        ⟨⟨[(1, 0)], []⟩, [⟨1, 100, 100, "pending", "p1", false⟩]⟩
        "payment.succeeded"
        ⟨some "p1", "succeeded", .val 100, "RUB"⟩
        (some ⟨some "succeeded", none, none⟩)).1.db.ledger =
      [⟨1, 100, "payment", some "p1", 100⟩] := by
  decide

/-- C6 (amended): the payment path is fail-closed over the *compared* amount:
when the provider verification call raises, no state changes and the call
reports failure; likewise when the verified status is not `succeeded`; the
transactional path refuses (state unchanged, payment still pending) whenever
the compared amount is unparsable, the currency differs from RUB or the
amount differs from the stored expectation; any ledger write implies the
compared amount equalled the expectation exactly with currency RUB; and the
compared amount is the provider-verified one exactly when the verification
response carries both amount and currency, falling back to the
webhook-claimed pair otherwise. -/
theorem C6_payment_fail_closed (s : PayDb) :
    (∀ event pobj, process_yookassa_webhook s event pobj none = (s, false)) ∧
    (∀ event pobj v, v.status ≠ some "succeeded" →
      process_yookassa_webhook s event pobj (some v) = (s, false)) ∧
    (∀ yid pobj payment, findPayment s.payments yid = some payment →
      payment.status ≠ "succeeded" →
      ((extract_amount_currency pobj).1 = none ∨
       (extract_amount_currency pobj).2 ≠ "RUB" ∨
       (∀ q, (extract_amount_currency pobj).1 = some q → q ≠ (payment.amount_rub : Rat))) →
      process_succeeded_payment s yid pobj = (s, false)) ∧
    (∀ yid pobj, (process_succeeded_payment s yid pobj).1.db.ledger ≠ s.db.ledger →
      ∃ payment q, findPayment s.payments yid = some payment ∧
        payment.status ≠ "succeeded" ∧
        (extract_amount_currency pobj).1 = some q ∧ q = (payment.amount_rub : Rat) ∧
        (extract_amount_currency pobj).2 = "RUB") ∧
    (∀ pobj a c yid, pobj.id = some yid → pobj.status = "succeeded" →
      process_yookassa_webhook s "payment.succeeded" pobj
          (some ⟨some "succeeded", some a, some c⟩) =
        process_succeeded_payment s yid
          { pobj with amount_value := .val a, amount_currency := c }) ∧
    (∀ pobj yid, pobj.id = some yid → pobj.status = "succeeded" →
      process_yookassa_webhook s "payment.succeeded" pobj
          (some ⟨some "succeeded", none, none⟩) =
        process_succeeded_payment s yid pobj) := by
  refine ⟨?_, ?_, ?_, ?_, ?_, ?_⟩
  · intro event pobj
    by_cases he : event ≠ "payment.succeeded" ∨ pobj.status ≠ "succeeded"
    · simp [process_yookassa_webhook, he]
    · rcases hid : pobj.id with _ | yid
      · simp [process_yookassa_webhook, he, hid]
      · simp [process_yookassa_webhook, he, hid]
  · intro event pobj v hv
    by_cases he : event ≠ "payment.succeeded" ∨ pobj.status ≠ "succeeded"
    · simp [process_yookassa_webhook, he]
    · rcases hid : pobj.id with _ | yid
      · simp [process_yookassa_webhook, he, hid]
      · simp [process_yookassa_webhook, he, hid, hv]
  · intro yid pobj payment hfind hst hbad
    rcases hex : (extract_amount_currency pobj).1 with _ | q
    · simp [process_succeeded_payment, hfind, hst, hex]
    · have hcond : (extract_amount_currency pobj).2 ≠ "RUB" ∨
          q ≠ (payment.amount_rub : Rat) := by
        rcases hbad with h1 | h1 | h1
        · rw [hex] at h1
          simp at h1
        · exact Or.inl h1
        · exact Or.inr (h1 q hex)
      simp [process_succeeded_payment, hfind, hst, hex, hcond]
  · intro yid pobj hne
    rcases hfind : findPayment s.payments yid with _ | payment
    · exact absurd (by simp [process_succeeded_payment, hfind]) hne
    · by_cases hst : payment.status = "succeeded"
      · exact absurd (by simp [process_succeeded_payment, hfind, hst]) hne
      · rcases hex : (extract_amount_currency pobj).1 with _ | q
        · exact absurd (by simp [process_succeeded_payment, hfind, hst, hex]) hne
        · by_cases hcond : (extract_amount_currency pobj).2 ≠ "RUB" ∨
              q ≠ (payment.amount_rub : Rat)
          · exact absurd (by simp [process_succeeded_payment, hfind, hst, hex, hcond]) hne
          · push_neg at hcond
            exact ⟨payment, q, rfl, hst, rfl, hcond.2, hcond.1⟩
  · intro pobj a c yid hid hst
    simp [process_yookassa_webhook, hid, hst]
  · intro pobj yid hid hst
    simp [process_yookassa_webhook, hid, hst]

/-- C6 witness: at a concrete pending payment, a failed verification call
changes nothing, and a webhook claiming USD is refused by the transactional
path. -/
theorem C6_payment_fail_closed_witness :
    process_yookassa_webhook
        ⟨⟨[(1, 0)], []⟩, [⟨1, 100, 100, "pending", "p1", false⟩]⟩
        "payment.succeeded" ⟨some "p1", "succeeded", .val 100, "RUB"⟩ none =
      (⟨⟨[(1, 0)], []⟩, [⟨1, 100, 100, "pending", "p1", false⟩]⟩, false) ∧
    process_succeeded_payment
        ⟨⟨[(1, 0)], []⟩, [⟨1, 100, 100, "pending", "p1", false⟩]⟩
        "p1" ⟨some "p1", "succeeded", .val 100, "USD"⟩ =
      (⟨⟨[(1, 0)], []⟩, [⟨1, 100, 100, "pending", "p1", false⟩]⟩, false) := by
  constructor
  · exact (C6_payment_fail_closed
      ⟨⟨[(1, 0)], []⟩, [⟨1, 100, 100, "pending", "p1", false⟩]⟩).1
      "payment.succeeded" ⟨some "p1", "succeeded", .val 100, "RUB"⟩
  · exact (C6_payment_fail_closed
      ⟨⟨[(1, 0)], []⟩, [⟨1, 100, 100, "pending", "p1", false⟩]⟩).2.2.1
      "p1" ⟨some "p1", "succeeded", .val 100, "USD"⟩
      ⟨1, 100, 100, "pending", "p1", false⟩ (by decide) (by decide)
      (Or.inr (Or.inl (by decide)))

/-- C7: processing a payment-succeeded notification is idempotent.  If the
payment row is already `succeeded`, the transactional path — and the webhook
path that funnels into it (so also the reconciler and the user-initiated
confirm, which call the same function) — returns success with the state
completely unchanged: no second ledger row, no balance change.  If the row is
not yet `succeeded` but the ledger already holds `(payment, yid)`, a repeat
with matching amount and currency returns success, flips only the payment
row, and leaves the ledger and every balance untouched. -/
theorem C7_payment_idempotent (s : PayDb) (yid : String) (payment : PaymentRow)
    (hfind : findPayment s.payments yid = some payment) :
    (payment.status = "succeeded" →
      (∀ pobj, process_succeeded_payment s yid pobj = (s, true)) ∧
      (∀ pobj v, pobj.status = "succeeded" → pobj.id = some yid →
        v.status = some "succeeded" →
        process_yookassa_webhook s "payment.succeeded" pobj (some v) = (s, true))) ∧
    (payment.status ≠ "succeeded" →
      s.db.ledger.any (fun e => decide (e.reason = "payment") &&
        decide (e.reference_id = some yid)) = true →
      ∀ pobj, (extract_amount_currency pobj).1 = some (payment.amount_rub : Rat) →
        (extract_amount_currency pobj).2 = "RUB" →
        process_succeeded_payment s yid pobj =
          ({ s with payments := setPaymentSucceeded s.payments yid }, true)) := by
  constructor
  · intro hsucc
    constructor
    · intro pobj
      simp [process_succeeded_payment, hfind, hsucc]
    · intro pobj v hst hid hv
      rcases v with ⟨vst, va, vc⟩
      simp only at hv
      subst hv
      rcases va with _ | a <;> rcases vc with _ | c <;>
        simp [process_yookassa_webhook, hid, hst, process_succeeded_payment, hfind, hsucc]
  · intro hst hany pobj h1 h2
    simp [process_succeeded_payment, hfind, hst, h1, h2, hany]

/-- C7 witness: for payment `p1` already succeeded the repeat webhook returns
success with the state unchanged, and for a pending payment whose credit is
already in the ledger the transactional repeat only flips the row. -/
theorem C7_payment_idempotent_witness :
    process_succeeded_payment
        ⟨⟨[(1, 200)], [⟨1, 200, "payment", some "p1", 200⟩]⟩,
         [⟨1, 200, 200, "succeeded", "p1", true⟩]⟩ "p1"
        ⟨some "p1", "succeeded", .val 200, "RUB"⟩ =
      (⟨⟨[(1, 200)], [⟨1, 200, "payment", some "p1", 200⟩]⟩,
        [⟨1, 200, 200, "succeeded", "p1", true⟩]⟩, true) ∧
    process_succeeded_payment
        ⟨⟨[(1, 200)], [⟨1, 200, "payment", some "p2", 200⟩]⟩,
         [⟨1, 200, 200, "pending", "p2", false⟩]⟩ "p2"
        ⟨some "p2", "succeeded", .val 200, "RUB"⟩ =
      (⟨⟨[(1, 200)], [⟨1, 200, "payment", some "p2", 200⟩]⟩,
        setPaymentSucceeded [⟨1, 200, 200, "pending", "p2", false⟩] "p2"⟩, true) := by
  constructor
  · exact ((C7_payment_idempotent
      ⟨⟨[(1, 200)], [⟨1, 200, "payment", some "p1", 200⟩]⟩,
       [⟨1, 200, 200, "succeeded", "p1", true⟩]⟩ "p1"
      ⟨1, 200, 200, "succeeded", "p1", true⟩ (by decide)).1 (by decide)).1
      ⟨some "p1", "succeeded", .val 200, "RUB"⟩
  · exact (C7_payment_idempotent
      ⟨⟨[(1, 200)], [⟨1, 200, "payment", some "p2", 200⟩]⟩,
       [⟨1, 200, 200, "pending", "p2", false⟩]⟩ "p2"
      ⟨1, 200, 200, "pending", "p2", false⟩ (by decide)).2 (by decide) (by decide)
      ⟨some "p2", "succeeded", .val 200, "RUB"⟩ (by decide) (by decide)

/-- C10: the per-user queued counter never persists a nonpositive value.
Starting from any state whose stored counters are all positive, every
interleaving of the public queue operations — enqueue (with its increment and
its over-cap rollback decrement), dequeue, queued-cancel, processing-cancel
and status writes — leaves every stored counter strictly positive, because
the decrement path re-reads the counter after decrementing and deletes the
key whenever the re-read value is ≤ 0. -/
theorem C10_counters_never_negative (cfg : Settings) (r : Redis) (ops : List QueueOp)
    (h : countersPositive r) : countersPositive (runQueueOps cfg r ops) := by
  induction ops generalizing r with
  | nil => simpa [runQueueOps] using h
  | cons op rest ih =>
    have h1 := countersPositive_applyQueueOp cfg r op h
    simpa [runQueueOps, List.foldl] using ih (applyQueueOp cfg r op) h1

/-- C10 witness: a concrete interleaving — enqueue for user 7, a second
enqueue, two dequeues, a queued-cancel and one dequeue of an empty queue —
run from a state with one counter at 2, ends with every stored counter
positive. -/
theorem C10_counters_never_negative_witness :
    countersPositive (runQueueOps defaultSettings
      ⟨[("a", ⟨7, 1, 19, "a", false, "queued"⟩)], ["a"], [(7, 2)], []⟩
      [.deq, .enq false false "b" ⟨7, 1, 19, "b", false, ""⟩, .cancelQueued "b",
       .deq, .deq]) :=
  C10_counters_never_negative defaultSettings
    ⟨[("a", ⟨7, 1, 19, "a", false, "queued"⟩)], ["a"], [(7, 2)], []⟩
    [.deq, .enq false false "b" ⟨7, 1, 19, "b", false, ""⟩, .cancelQueued "b",
     .deq, .deq]
    (by simp [countersPositive])

/-- C9: GPU-slot acquisition is fail-open.  When the atomic script raises,
`acquire_gpu_slot` returns true with the store untouched — no counter
increment and no per-task marker — even when the counter already sits at
`MAX_GPU_JOBS`; and because the marker is absent, the subsequent
`release_gpu_slot` is a no-op. -/
theorem C9_gpu_acquire_fail_open (g : Gpu) (task_id : String)
    (h : task_id ∉ g.markers) :
    acquire_gpu_slot g true task_id = (g, true) ∧
    release_gpu_slot g task_id = g ∧
    (get_active_gpu_jobs g ≥ MAX_GPU_JOBS → (acquire_gpu_slot g true task_id).2 = true) := by
  refine ⟨rfl, ?_, fun _ => rfl⟩
  simp [release_gpu_slot, h]

/-- C9 witness: at a saturated counter (`gpu:active_jobs = 1 = MAX_GPU_JOBS`)
and no marker for `t1`, the failing acquire still admits the task and the
release changes nothing. -/
theorem C9_gpu_acquire_fail_open_witness :
    acquire_gpu_slot ⟨some 1, []⟩ true "t1" = (⟨some 1, []⟩, true) ∧
    release_gpu_slot ⟨some 1, []⟩ "t1" = ⟨some 1, []⟩ ∧
    (get_active_gpu_jobs ⟨some 1, []⟩ ≥ MAX_GPU_JOBS →
      (acquire_gpu_slot ⟨some 1, []⟩ true "t1").2 = true) :=
  C9_gpu_acquire_fail_open ⟨some 1, []⟩ "t1" (by decide)

end MyBot
